import Mathlib

/-!
Verification of the AgriGuard smart contracts
(`smart_contracts/insurance/contract.py` and
`smart_contracts/dispute/contract.py`).

The two Algorand contracts are shallowly embedded: box maps become
association lists, AVM `UInt64` values become `Nat` (AVM addition on the
counters involved here cannot reach 2^64 in any feasible execution, but AVM
subtraction can underflow at small values, so subtraction is modelled
exactly: it aborts the transaction on underflow, see `avmSub`).  A failing
AVM `assert` or arithmetic panic aborts the whole transaction with no state
change; this is modelled by `Except TxError` results, where an `.error`
outcome carries no state (the pre-state persists unchanged on chain).
`Global.round` and `Txn.sender` are passed as explicit arguments.
-/

/-- Transaction abort causes.  Each constructor corresponds to one `assert`
message in the source (noted in comments) or to an AVM arithmetic panic. -/
inductive TxError
  | onlyAdmin          -- "Only admin ..." asserts
  | onlyOracle         -- "Only oracle can settle policies"
  | alreadySettled     -- "Policy already settled"
  | notStarted         -- "Policy has not started yet"
  | expired            -- "Policy has expired"
  | groupSize          -- "Must be called in group transaction"
  | startNotBeforeEnd  -- "Start time must be before end time"
  | capNotPositive     -- "Coverage amount must be positive"
  | feeNotPositive     -- "Fee must be positive"
  | startsInPast       -- "Policy cannot start in the past"
  | durationTooShort   -- "Policy duration too short (minimum 100 rounds)"
  | disputeWindowExpired -- "Dispute filing period expired"
  | initPeriod         -- "Contract initialization period not complete"
  | notOperational     -- "Contract not fully operational yet"
  | tooSoon            -- "Juror voted too recently"
  | underflow          -- AVM panic: UInt64 subtraction below zero
deriving DecidableEq, Repr

/-- Algorand account addresses, abstracted as atoms (address `0` plays the
role of `Global.zero_address`). -/
abbrev Address := Nat

/-- A chunk of an AVM byte string: either an ASCII tag literal from the
source or the 32-byte encoding of an account address.  Concatenations of
such chunks (always a tag next to an address in this code base) are
distinguishable exactly when the chunk lists are, so `Bytes` keeps the
chunk structure instead of raw bytes. -/
inductive BChunk
  | str (s : String)
  | addr (a : Address)
deriving DecidableEq, Repr

/-- AVM byte strings, as lists of chunks; `[]` is the empty byte string. -/
abbrev Bytes := List BChunk

/-- AVM `UInt64` subtraction: panics (aborts the transaction) on
underflow. -/
def avmSub (a b : Nat) : Except TxError Nat :=
  if b ≤ a then .ok (a - b) else .error .underflow

/-- Box-map read (`BoxMap.__getitem__` / first component of `maybe`). -/
def boxGet {κ ν : Type} [DecidableEq κ] : List (κ × ν) → κ → Option ν
  | [], _ => none
  | (k, v) :: rest, key => if k = key then some v else boxGet rest key

/-- Box-map write (`BoxMap.__setitem__`). -/
def boxSet {κ ν : Type} [DecidableEq κ] : List (κ × ν) → κ → ν → List (κ × ν)
  | [], key, v => [(key, v)]
  | (k, w) :: rest, key, v =>
    if k = key then (key, v) :: rest else (k, w) :: boxSet rest key v

/-- Box-map delete (`del box[key]`). -/
def boxDel {κ ν : Type} [DecidableEq κ] : List (κ × ν) → κ → List (κ × ν)
  | [], _ => []
  | (k, w) :: rest, key =>
    if k = key then boxDel rest key else (k, w) :: boxDel rest key

/-- `BoxMap.maybe`: returns the stored value (or the type's zero value when
absent) together with the existence flag. -/
def maybeBox {κ ν : Type} [DecidableEq κ] (zero : ν) (m : List (κ × ν)) (k : κ) :
    ν × Bool :=
  match boxGet m k with
  | some v => (v, true)
  | none => (zero, false)

/-- Extract the value of an `Except` that is known to be `.ok`. -/
def exceptGetD {α : Type} (x : Except TxError α) (dflt : α) : α :=
  match x with
  | .ok a => a
  | .error _ => dflt

instance {ε α : Type} [DecidableEq ε] [DecidableEq α] : DecidableEq (Except ε α) :=
  fun a b =>
    match a, b with
    | .ok x, .ok y => decidable_of_iff (x = y) (by simp)
    | .error x, .error y => decidable_of_iff (x = y) (by simp)
    | .ok _, .error _ => isFalse (fun h => by cases h)
    | .error _, .ok _ => isFalse (fun h => by cases h)

namespace Ins

/-! ### `AgriGuardInsurance` (smart_contracts/insurance/contract.py) -/

/-- `PolicyData` (abi_types): one insurance policy. -/
structure PolicyData where
  owner : Address
  zip_code : Bytes
  t0 : Nat
  t1 : Nat
  cap : Nat
  direction : Nat
  threshold : Nat
  slope : Nat
  fee_paid : Nat
  settled : Nat   -- 0 = Unsettled, 1 = Settled
deriving DecidableEq, Repr

/-- `PolicyEvent`: event-log entry. -/
structure PolicyEvent where
  policy_id : Nat
  owner : Address
  action : String
  timestamp : Nat
  amount : Nat
deriving DecidableEq, Repr

/-- `InsuranceStats`: global statistics box. -/
structure InsuranceStats where
  total_policies : Nat
  total_coverage : Nat
  total_payouts : Nat
  active_policies : Nat
  total_fees_collected : Nat
deriving DecidableEq, Repr

/-- An inner `itxn.Payment` submitted during settlement (fee and note
fields of the inner transaction are irrelevant to the claims and
omitted). -/
structure Payment where
  receiver : Address
  amount : Nat
deriving DecidableEq, Repr

/-- Global state of the insurance application. -/
structure InsState where
  admin : Address
  oracle : Address
  dispute_contract : Address
  next_policy_id : Nat
  contract_creation_round : Nat
  policies : List (Nat × PolicyData)
  stats : InsuranceStats
  event_log : List (Nat × PolicyEvent)
  next_event_id : Nat
deriving DecidableEq, Repr

/-- The ARC4 zero value of `PolicyData`, produced by `maybe` on a missing
key. -/
def policyZero : PolicyData := ⟨0, [], 0, 0, 0, 0, 0, 0, 0, 0⟩

/-- `_log_event`: appends a `PolicyEvent` under `next_event_id`. -/
def _log_event (s : InsState) (policy_id : Nat) (owner : Address)
    (action : String) (amount : Nat) (round : Nat) : InsState :=
  { s with
    event_log := boxSet s.event_log s.next_event_id
      ⟨policy_id, owner, action, round, amount⟩,
    next_event_id := s.next_event_id + 1 }

/-- `_update_stats`: dispatches on the action string; the
`"policy_settled"` branch decrements `active_policies`, which panics when
the counter is zero. -/
def _update_stats (s : InsState) (action : String)
    (coverage_amount fee_amount : Nat) : Except TxError InsState :=
  let st := s.stats
  if action = "policy_created" then
    .ok { s with stats :=
      { st with
        total_policies := st.total_policies + 1,
        total_coverage := st.total_coverage + coverage_amount,
        active_policies := st.active_policies + 1,
        total_fees_collected := st.total_fees_collected + fee_amount } }
  else if action = "policy_settled" then
    match avmSub st.active_policies 1 with
    | .error e => .error e
    | .ok a =>
      .ok { s with stats :=
        { st with
          total_payouts := st.total_payouts + coverage_amount,
          active_policies := a } }
  else .ok s

/-- `__init__` followed by `create_application(admin)`: zeroed globals and
statistics, plus the `"contract_created"` event. -/
def insInit (admin : Address) (round : Nat) : InsState :=
  _log_event
    { admin := admin, oracle := 0, dispute_contract := 0,
      next_policy_id := 1, contract_creation_round := round,
      policies := [], stats := ⟨0, 0, 0, 0, 0⟩,
      event_log := [], next_event_id := 1 }
    0 admin "contract_created" 0 round

/-- `set_oracle` (admin only). -/
def set_oracle (s : InsState) (sender : Address) (oracle : Address) :
    Except TxError InsState :=
  if sender ≠ s.admin then .error .onlyAdmin
  else .ok { s with oracle := oracle }

/-- `set_dispute_contract` (admin only). -/
def set_dispute_contract (s : InsState) (sender : Address) (a : Address) :
    Except TxError (InsState × Nat) :=
  if sender ≠ s.admin then .error .onlyAdmin
  else .ok ({ s with dispute_contract := a }, 1)

/-- `buy_policy_with_payment`: validated policy creation (each `if` guard
is the negation of the corresponding source `assert`). -/
def buy_policy_with_payment (s : InsState) (sender : Address)
    (round group_size : Nat) (zip_code : Bytes)
    (t0 t1 cap direction threshold slope fee : Nat) :
    Except TxError (InsState × Nat) :=
  if group_size ≠ 2 then .error .groupSize
  else if t1 ≤ t0 then .error .startNotBeforeEnd
  else if cap = 0 then .error .capNotPositive
  else if fee = 0 then .error .feeNotPositive
  else if t0 ≤ round then .error .startsInPast
  else if t1 ≤ t0 + 100 then .error .durationTooShort
  else
    let policy_id := s.next_policy_id
    let s1 := { s with next_policy_id := s.next_policy_id + 1 }
    let pd : PolicyData :=
      ⟨sender, zip_code, t0, t1, cap, direction, threshold, slope, fee, 0⟩
    let s2 := { s1 with policies := boxSet s1.policies policy_id pd }
    match _update_stats s2 "policy_created" cap fee with
    | .error e => .error e
    | .ok s3 => .ok (_log_event s3 policy_id sender "policy_created" cap round, policy_id)

/-- `buy_policy` ("simple version for testing"): stores the policy with no
validation, no statistics update and no event; never fails. -/
def buy_policy (s : InsState) (sender : Address) (zip_code : Bytes)
    (t0 t1 cap direction threshold slope fee : Nat) : InsState × Nat :=
  let policy_id := s.next_policy_id
  let s1 := { s with next_policy_id := s.next_policy_id + 1 }
  let pd : PolicyData :=
    ⟨sender, zip_code, t0, t1, cap, direction, threshold, slope, fee, 0⟩
  ({ s1 with policies := boxSet s1.policies policy_id pd }, policy_id)

/-- `oracle_settle`: oracle-only settlement; pays `cap` to the owner when
`approved == 1`, marks the policy settled, updates statistics, logs. -/
def oracle_settle (s : InsState) (sender : Address) (round : Nat)
    (policy_id approved : Nat) : Except TxError (InsState × List Payment × Nat) :=
  if sender ≠ s.oracle then .error .onlyOracle
  else
    let pd := (maybeBox policyZero s.policies policy_id).1
    if pd.settled ≠ 0 then .error .alreadySettled
    else if round < pd.t0 then .error .notStarted
    else if pd.t1 < round then .error .expired
    else
      let payout := if approved = 1 then pd.cap else 0
      let payments : List Payment :=
        if approved = 1 then (if 0 < payout then [⟨pd.owner, payout⟩] else []) else []
      let pd2 := { pd with settled := 1 }
      let s2 := { s with policies := boxSet s.policies policy_id pd2 }
      match _update_stats s2 "policy_settled" payout 0 with
      | .error e => .error e
      | .ok s3 =>
        let s4 := _log_event s3 policy_id pd.owner
          (if approved = 1 then "settled_approved" else "settled_rejected") payout round
        .ok (s4, payments, payout)

/-- `dispute_settlement`: owner-only dispute filing on a settled policy.
The source sets `settlement_round = policy_data.settled.native` (the 0/1
flag, not a round) and asserts
`current_round <= settlement_round + 1000`.  The returned `Bool` records
whether the cross-contract `create_dispute` inner call was attempted
(`dispute_contract` set). -/
def dispute_settlement (s : InsState) (sender : Address) (round : Nat)
    (policy_id : Nat) : Except TxError (InsState × Bool × Nat) :=
  let pd := (maybeBox policyZero s.policies policy_id).1
  let pexists := (maybeBox policyZero s.policies policy_id).2
  if pexists = false then .ok (s, false, 0)
  else if sender ≠ pd.owner then .ok (s, false, 0)
  else if pd.settled = 0 then .ok (s, false, 0)
  else
    let settlement_round := pd.settled
    if settlement_round + 1000 < round then .error .disputeWindowExpired
    else
      let attempted := decide (s.dispute_contract ≠ 0)
      let s2 := _log_event s policy_id sender "disputed" 0 round
      .ok (s2, attempted, 1)

/-- `delete_policy`: owner-only removal of an unsettled policy; touches
nothing but the one `policies` box entry. -/
def delete_policy (s : InsState) (sender : Address) (policy_id : Nat) :
    InsState × Nat :=
  let pd := (maybeBox policyZero s.policies policy_id).1
  let pexists := (maybeBox policyZero s.policies policy_id).2
  if pexists = false then (s, 0)
  else if sender ≠ pd.owner then (s, 0)
  else if pd.settled = 1 then (s, 0)
  else ({ s with policies := boxDel s.policies policy_id }, 1)

end Ins

namespace Disp

/-! ### `AgriGuardDispute` (smart_contracts/dispute/contract.py) -/

/-- `DisputeEvent`: event-log entry. -/
structure DisputeEvent where
  dispute_id : Nat
  action : String
  juror : Address
  timestamp : Nat
  vote_value : Nat
deriving DecidableEq, Repr

/-- `DisputeStats`: global statistics box. -/
structure DisputeStats where
  total_disputes : Nat
  resolved_disputes : Nat
  rejected_disputes : Nat
  total_votes_cast : Nat
  active_jurors : Nat
deriving DecidableEq, Repr

/-- `DisputeData`: one dispute
(status: 0 = active, 1 = resolved/approved, 2 = rejected, 3 = processed). -/
structure DisputeData where
  policy_id : Nat
  claimant : Address
  reason : String
  created_at : Nat
  status : Nat
  yes_votes : Nat
  no_votes : Nat
  total_votes : Nat
  voting_deadline : Nat
  resolution_round : Nat
deriving DecidableEq, Repr

/-- `VoteData`: one recorded vote (vote: 0 = no, 1 = yes). -/
structure VoteData where
  juror : Address
  vote : Nat
  timestamp : Nat
  dispute_id : Nat
deriving DecidableEq, Repr

/-- `JurorData`: one registered juror. -/
structure JurorData where
  address : Address
  reputation : Nat
  total_votes : Nat
  correct_votes : Nat
  registration_round : Nat
  last_vote_round : Nat
  staked_amount : Nat
deriving DecidableEq, Repr

/-- One invocation of the `_trigger_insurance_settlement` subroutine,
recording the arguments it derives (`insurance_approval` is 1 for an
approved dispute, 0 for a rejected one). -/
structure BridgeCall where
  policy_id : Nat
  insurance_approval : Nat
deriving DecidableEq, Repr

/-- Observable cross-contract effects of one `vote_on_dispute` call:
`bridgeCalls` lists the invocations of `_trigger_insurance_settlement`,
and `settleCalls` lists the actual settlement inner transactions those
invocations submit to the insurance contract. -/
structure VoteEffects where
  bridgeCalls : List BridgeCall
  settleCalls : List BridgeCall
deriving DecidableEq, Repr

/-- No cross-contract effect. -/
def noEffects : VoteEffects := ⟨[], []⟩

/-- Global state of the dispute application. -/
structure DispState where
  admin : Address
  insurance_contract : Address
  next_dispute_id : Nat
  total_jurors : Nat
  contract_creation_round : Nat
  voting_duration_rounds : Nat
  min_stake_amount : Nat
  disputes : List (Nat × DisputeData)
  jurors : List (Address × JurorData)
  dispute_jurors : List (Nat × Bytes)
  juror_disputes : List (Bytes × Bytes)
  juror_votes : List (Bytes × VoteData)
  stats : DisputeStats
  event_log : List (Nat × DisputeEvent)
  next_event_id : Nat
deriving DecidableEq, Repr

/-- ARC4 zero value of `DisputeData`. -/
def disputeZero : DisputeData := ⟨0, 0, "", 0, 0, 0, 0, 0, 0, 0⟩

/-- ARC4 zero value of `JurorData`. -/
def jurorZero : JurorData := ⟨0, 0, 0, 0, 0, 0, 0⟩

/-- ARC4 zero value of `VoteData`. -/
def voteZero : VoteData := ⟨0, 0, 0, 0⟩

/-- `_log_event`: appends a `DisputeEvent` under `next_event_id`. -/
def _log_event (s : DispState) (dispute_id : Nat) (juror : Address)
    (action : String) (vote_value : Nat) (round : Nat) : DispState :=
  { s with
    event_log := boxSet s.event_log s.next_event_id
      ⟨dispute_id, action, juror, round, vote_value⟩,
    next_event_id := s.next_event_id + 1 }

/-- `_update_stats`: dispatches on the action string; all branches only
increment counters (never fails). -/
def _update_stats (s : DispState) (action : String) : DispState :=
  let st := s.stats
  if action = "dispute_created" then
    { s with stats := { st with total_disputes := st.total_disputes + 1 } }
  else if action = "dispute_resolved" then
    { s with stats := { st with resolved_disputes := st.resolved_disputes + 1 } }
  else if action = "dispute_rejected" then
    { s with stats := { st with rejected_disputes := st.rejected_disputes + 1 } }
  else if action = "dispute_processed" then
    s
  else if action = "vote_cast" then
    { s with stats := { st with total_votes_cast := st.total_votes_cast + 1 } }
  else if action = "juror_registered" then
    { s with stats := { st with active_jurors := st.active_jurors + 1 } }
  else s

/-- `__init__` followed by `create_application(admin)`. -/
def dispInit (admin : Address) (round : Nat) : DispState :=
  _log_event
    { admin := admin, insurance_contract := 0, next_dispute_id := 1,
      total_jurors := 0, contract_creation_round := round,
      voting_duration_rounds := 1000, min_stake_amount := 1000000,
      disputes := [], jurors := [], dispute_jurors := [],
      juror_disputes := [], juror_votes := [],
      stats := ⟨0, 0, 0, 0, 0⟩, event_log := [], next_event_id := 1 }
    0 admin "contract_created" 0 round

/-- `set_insurance_contract` (admin only). -/
def set_insurance_contract (s : DispState) (sender : Address) (a : Address) :
    Except TxError (DispState × Nat) :=
  if sender ≠ s.admin then .error .onlyAdmin
  else .ok ({ s with insurance_contract := a }, 1)

/-- `register_juror`: one-time registration after a 10-round warm-up. -/
def register_juror (s : DispState) (caller : Address) (round : Nat) :
    Except TxError (DispState × Nat) :=
  if (maybeBox jurorZero s.jurors caller).2 = true then .ok (s, 0)
  else if round < s.contract_creation_round + 10 then .error .initPeriod
  else
    let jd : JurorData := ⟨caller, 100, 0, 0, round, 0, s.min_stake_amount⟩
    let s1 := { s with jurors := boxSet s.jurors caller jd,
                       total_jurors := s.total_jurors + 1 }
    let s2 := _update_stats s1 "juror_registered"
    let s3 := _log_event s2 0 caller "juror_registered" 0 round
    .ok (s3, 1)

/-- `_get_juror_address_by_index`: the source is a stub that always
returns the empty byte string (`return Bytes(b"")`). -/
def _get_juror_address_by_index (_index : Nat) : Bytes := []

/-- The key `caller.bytes + Bytes(b"dispute")` under which
`vote_on_dispute` looks up the juror assignment in `juror_disputes`. -/
def assignKey (caller : Address) : Bytes := [BChunk.addr caller, BChunk.str "dispute"]

/-- The key `Bytes(b"dispute") + caller.bytes` under which
`vote_on_dispute` records votes in `juror_votes` (note: it does not
involve the dispute id). -/
def voteKey (caller : Address) : Bytes := [BChunk.str "dispute", BChunk.addr caller]

/-- The vote-count update of `vote_on_dispute`: one of `yes_votes` /
`no_votes` is incremented, then `total_votes`. -/
def tallyDD (dd : DisputeData) (vote : Nat) : DisputeData :=
  let dd1 :=
    if vote = 1 then { dd with yes_votes := dd.yes_votes + 1 }
    else { dd with no_votes := dd.no_votes + 1 }
  { dd1 with total_votes := dd1.total_votes + 1 }

/-- The resolution update applied when quorum is reached: status 1
(approved) when `yes_votes >= 4`, else status 2 (rejected); the
resolution round is recorded. -/
def resolveDD (dd : DisputeData) (round : Nat) : DisputeData :=
  if 4 ≤ dd.yes_votes then { dd with status := 1, resolution_round := round }
  else { dd with status := 2, resolution_round := round }

/-- The dispute record stored by a successful `vote_on_dispute` call:
tallied, and additionally resolved when the new total reaches 7. -/
def voteFinalDD (dd : DisputeData) (vote round : Nat) : DisputeData :=
  if 7 ≤ (tallyDD dd vote).total_votes then resolveDD (tallyDD dd vote) round
  else tallyDD dd vote

/-- The juror-selection loop shared (with identical bodies and loop
conditions) by both branches of `_select_jurors`.  `fuel` bounds the
iteration count; each iteration increments `juror_index`, so
`total_jurors` fuel suffices. -/
def selectJurorsGo (fuel : Nat) (juror_index total selected_count : Nat)
    (selected : Bytes) (jd : List (Bytes × Bytes)) : Bytes × List (Bytes × Bytes) :=
  match fuel with
  | 0 => (selected, jd)
  | f + 1 =>
    if juror_index < total ∧ selected_count < 10 then
      let i2 := juror_index + 1
      let juror_address_bytes := _get_juror_address_by_index i2
      if juror_address_bytes ≠ [] then
        let selected2 := selected ++ juror_address_bytes
        let key := juror_address_bytes ++ [BChunk.str "assigned"]
        selectJurorsGo f i2 total (selected_count + 1) selected2
          (boxSet jd key [BChunk.str "assigned"])
      else
        selectJurorsGo f i2 total selected_count selected jd
    else (selected, jd)

/-- `_select_jurors`: runs the selection loop and stores the packed
selection under the dispute id. -/
def _select_jurors (s : DispState) (dispute_id : Nat) : DispState :=
  let r := selectJurorsGo s.total_jurors 0 s.total_jurors 0 [] s.juror_disputes
  { s with juror_disputes := r.2,
           dispute_jurors := boxSet s.dispute_jurors dispute_id r.1 }

/-- The fresh dispute record stored by `create_dispute`. -/
def newDisputeData (policy_id : Nat) (caller : Address) (round dur : Nat) :
    DisputeData :=
  ⟨policy_id, caller, "Policy settlement dispute", round, 0, 0, 0, 0,
   round + dur, 0⟩

/-- `create_dispute`: juror-only dispute creation after a 50-round
warm-up. -/
def create_dispute (s : DispState) (caller : Address) (round : Nat)
    (policy_id : Nat) : Except TxError (DispState × Nat) :=
  if (maybeBox jurorZero s.jurors caller).2 = false then .ok (s, 0)
  else if round < s.contract_creation_round + 50 then .error .notOperational
  else
    let dispute_id := s.next_dispute_id
    let s1 := { s with next_dispute_id := s.next_dispute_id + 1 }
    let dd : DisputeData := newDisputeData policy_id caller round s.voting_duration_rounds
    let s2 := { s1 with disputes := boxSet s1.disputes dispute_id dd }
    let s3 := _select_jurors s2 dispute_id
    let s4 := _update_stats s3 "dispute_created"
    let s5 := _log_event s4 dispute_id caller "dispute_created" 0 round
    .ok (s5, dispute_id)

/-- `_trigger_insurance_settlement`: converts the dispute status to the
insurance approval format (`1 = approved, 0 = rejected`).  The source
subroutine then only emits a `CROSS_CONTRACT_SETTLEMENT` log for external
monitoring — it submits no inner transaction to the insurance contract —
so `settleCalls` is empty. -/
def _trigger_insurance_settlement (policy_id dispute_status : Nat) : VoteEffects :=
  let insurance_approval := if dispute_status = 1 then 1 else 0
  { bridgeCalls := [⟨policy_id, insurance_approval⟩], settleCalls := [] }

/-- The state and effects produced by a `vote_on_dispute` call that passed
every check (the part of the source after the `existing_vote` test). -/
def voteApply (s : DispState) (caller : Address) (round : Nat)
    (dispute_id vote : Nat) : DispState × VoteEffects :=
  let dd0 := (maybeBox disputeZero s.disputes dispute_id).1
  let jd0 := (maybeBox jurorZero s.jurors caller).1
  let vd : VoteData := ⟨caller, vote, round, dispute_id⟩
  let s1 := { s with juror_votes := boxSet s.juror_votes (voteKey caller) vd }
  let dd2 := tallyDD dd0 vote
  let s2 := { s1 with disputes := boxSet s1.disputes dispute_id dd2 }
  let jd1 := { jd0 with last_vote_round := round, total_votes := jd0.total_votes + 1 }
  let s3 := { s2 with jurors := boxSet s2.jurors caller jd1 }
  if 7 ≤ dd2.total_votes then
    let dd3 := resolveDD dd2 round
    let s4 := _update_stats s3
      (if 4 ≤ dd2.yes_votes then "dispute_resolved" else "dispute_rejected")
    let s5 := { s4 with disputes := boxSet s4.disputes dispute_id dd3 }
    let s6 := _log_event s5 dispute_id caller
      (if dd3.status = 1 then "dispute_resolved" else "dispute_rejected") vote round
    let eff :=
      if s.insurance_contract ≠ 0 then
        _trigger_insurance_settlement dd3.policy_id dd3.status
      else noEffects
    let s7 := _update_stats s6 "vote_cast"
    let s8 := _log_event s7 dispute_id caller "vote_cast" vote round
    (s8, eff)
  else
    let s7 := _update_stats s3 "vote_cast"
    let s8 := _log_event s7 dispute_id caller "vote_cast" vote round
    (s8, noEffects)

/-- `vote_on_dispute`: the check sequence of the source, in order; the
post-check mutation is `voteApply`.  Return value 1 means the vote was
recorded; 0 is the source's early-return rejection. -/
def vote_on_dispute (s : DispState) (caller : Address) (round : Nat)
    (dispute_id vote : Nat) : Except TxError (DispState × VoteEffects × Nat) :=
  let dd := (maybeBox disputeZero s.disputes dispute_id).1
  let dispute_exists := (maybeBox disputeZero s.disputes dispute_id).2
  if dispute_exists = false then .ok (s, noEffects, 0)
  else if dd.voting_deadline < round then .ok (s, noEffects, 0)
  else if dd.status ≠ 0 then .ok (s, noEffects, 0)
  else
    let jd := (maybeBox jurorZero s.jurors caller).1
    let juror_exists := (maybeBox jurorZero s.jurors caller).2
    if juror_exists = false then .ok (s, noEffects, 0)
    else
      let is_assigned := (maybeBox ([] : Bytes) s.juror_disputes (assignKey caller)).2
      if is_assigned = false then .ok (s, noEffects, 0)
      else
        match avmSub round jd.last_vote_round with
        | .error e => .error e
        | .ok rounds_since_last_vote =>
          if rounds_since_last_vote < 10 then .error .tooSoon
          else
            let existing_vote := (maybeBox voteZero s.juror_votes (voteKey caller)).2
            if existing_vote = true then .ok (s, noEffects, 0)
            else
              let r := voteApply s caller round dispute_id vote
              .ok (r.1, r.2, 1)

/-- The exact sequence of checks a `vote_on_dispute` call must pass to
reach its success path, phrased over the fetched records as the source
tests them: the dispute exists, its deadline has not passed, it is
active, the caller is a registered juror, the caller is assigned
(`juror_disputes` holds `assignKey caller`), the cooldown subtraction
does not underflow and yields at least 10, and no vote is recorded under
`voteKey caller`. -/
def votePreconds (s : DispState) (caller : Address) (round : Nat)
    (dispute_id : Nat) : Prop :=
  (maybeBox disputeZero s.disputes dispute_id).2 = true ∧
  round ≤ ((maybeBox disputeZero s.disputes dispute_id).1).voting_deadline ∧
  ((maybeBox disputeZero s.disputes dispute_id).1).status = 0 ∧
  (maybeBox jurorZero s.jurors caller).2 = true ∧
  (maybeBox ([] : Bytes) s.juror_disputes (assignKey caller)).2 = true ∧
  ((maybeBox jurorZero s.jurors caller).1).last_vote_round ≤ round ∧
  10 ≤ round - ((maybeBox jurorZero s.jurors caller).1).last_vote_round ∧
  (maybeBox voteZero s.juror_votes (voteKey caller)).2 = false

instance (s : DispState) (caller : Address) (round dispute_id : Nat) :
    Decidable (votePreconds s caller round dispute_id) := by
  unfold votePreconds
  infer_instance

/-- `mark_dispute_processed` (admin only): sets status 3. -/
def mark_dispute_processed (s : DispState) (sender : Address) (round : Nat)
    (dispute_id : Nat) : Except TxError (DispState × Nat) :=
  if sender ≠ s.admin then .error .onlyAdmin
  else
    let dd := (maybeBox disputeZero s.disputes dispute_id).1
    let dispute_exists := (maybeBox disputeZero s.disputes dispute_id).2
    if dispute_exists = false then .ok (s, 0)
    else
      let s1 := { s with disputes := boxSet s.disputes dispute_id { dd with status := 3 } }
      let s2 := _update_stats s1 "dispute_processed"
      let s3 := _log_event s2 dispute_id s.admin "dispute_processed" 0 round
      .ok (s3, 1)

end Disp

/-- One state-mutating ABI call on the insurance application (failed
calls abort without a state change and therefore produce no step). -/
inductive InsStep : Ins.InsState → Ins.InsState → Prop
  | set_oracle (s : Ins.InsState) (sender a : Address) (s2 : Ins.InsState) :
      Ins.set_oracle s sender a = .ok s2 → InsStep s s2
  | set_dispute_contract (s : Ins.InsState) (sender a : Address)
      (s2 : Ins.InsState) (ret : Nat) :
      Ins.set_dispute_contract s sender a = .ok (s2, ret) → InsStep s s2
  | buy_with_payment (s : Ins.InsState) (sender : Address)
      (round group_size : Nat) (zip : Bytes)
      (t0 t1 cap direction threshold slope fee : Nat)
      (s2 : Ins.InsState) (pid : Nat) :
      Ins.buy_policy_with_payment s sender round group_size zip
        t0 t1 cap direction threshold slope fee = .ok (s2, pid) →
      InsStep s s2
  | buy (s : Ins.InsState) (sender : Address) (zip : Bytes)
      (t0 t1 cap direction threshold slope fee : Nat) :
      InsStep s (Ins.buy_policy s sender zip t0 t1 cap direction threshold slope fee).1
  | settle (s : Ins.InsState) (sender : Address) (round pid approved : Nat)
      (s2 : Ins.InsState) (pays : List Ins.Payment) (ret : Nat) :
      Ins.oracle_settle s sender round pid approved = .ok (s2, pays, ret) →
      InsStep s s2
  | dispute (s : Ins.InsState) (sender : Address) (round pid : Nat)
      (s2 : Ins.InsState) (att : Bool) (ret : Nat) :
      Ins.dispute_settlement s sender round pid = .ok (s2, att, ret) →
      InsStep s s2
  | delete (s : Ins.InsState) (sender : Address) (pid : Nat) :
      InsStep s (Ins.delete_policy s sender pid).1

/-- One state-mutating ABI call on the dispute application. -/
inductive DStep : Disp.DispState → Disp.DispState → Prop
  | set_insurance (s : Disp.DispState) (sender a : Address)
      (s2 : Disp.DispState) (ret : Nat) :
      Disp.set_insurance_contract s sender a = .ok (s2, ret) → DStep s s2
  | register (s : Disp.DispState) (caller : Address) (round : Nat)
      (s2 : Disp.DispState) (ret : Nat) :
      Disp.register_juror s caller round = .ok (s2, ret) → DStep s s2
  | create (s : Disp.DispState) (caller : Address) (round pid : Nat)
      (s2 : Disp.DispState) (ret : Nat) :
      Disp.create_dispute s caller round pid = .ok (s2, ret) → DStep s s2
  | vote (s : Disp.DispState) (caller : Address) (round did v : Nat)
      (s2 : Disp.DispState) (eff : Disp.VoteEffects) (ret : Nat) :
      Disp.vote_on_dispute s caller round did v = .ok (s2, eff, ret) → DStep s s2
  | processed (s : Disp.DispState) (sender : Address) (round did : Nat)
      (s2 : Disp.DispState) (ret : Nat) :
      Disp.mark_dispute_processed s sender round did = .ok (s2, ret) → DStep s s2

/-- States of the dispute application reachable from contract creation
by any sequence of ABI calls. -/
inductive DReachable : Disp.DispState → Prop
  | init (admin : Address) (round : Nat) : DReachable (Disp.dispInit admin round)
  | step {s s2 : Disp.DispState} : DReachable s → DStep s s2 → DReachable s2

/-- The vote-count bookkeeping invariant of claim C3. -/
def votesConsistent (s : Disp.DispState) : Prop :=
  ∀ id dd, boxGet s.disputes id = some dd →
    dd.total_votes = dd.yes_votes + dd.no_votes

/-- Number of stored policies whose `settled` flag is 0 (what
`get_statistics().active_policies` is meant to count). -/
def unsettledCount (s : Ins.InsState) : Nat :=
  (s.policies.filter (fun p => decide (p.2.settled = 0))).length

/-- The state produced by a successful `oracle_settle` call, written out. -/
def settleResultState (s : Ins.InsState) (r pid approved : Nat)
    (pd : Ins.PolicyData) : Ins.InsState :=
  Ins._log_event
    { s with
      policies := boxSet s.policies pid { pd with settled := 1 },
      stats := { s.stats with
        total_payouts := s.stats.total_payouts + (if approved = 1 then pd.cap else 0),
        active_policies := s.stats.active_policies - 1 } }
    pid pd.owner (if approved = 1 then "settled_approved" else "settled_rejected")
    (if approved = 1 then pd.cap else 0) r

/-- The state produced by a successful `buy_policy_with_payment` call,
written out. -/
def buyResultState (s : Ins.InsState) (sender : Address) (round : Nat)
    (zip : Bytes) (t0 t1 cap direction threshold slope fee : Nat) : Ins.InsState :=
  Ins._log_event
    { s with
      next_policy_id := s.next_policy_id + 1,
      policies := boxSet s.policies s.next_policy_id
        ⟨sender, zip, t0, t1, cap, direction, threshold, slope, fee, 0⟩,
      stats := { s.stats with
        total_policies := s.stats.total_policies + 1,
        total_coverage := s.stats.total_coverage + cap,
        active_policies := s.stats.active_policies + 1,
        total_fees_collected := s.stats.total_fees_collected + fee } }
    s.next_policy_id sender "policy_created" cap round

/-! ### Concrete states used by witnesses and counterexamples -/

/-- Dispute contract freshly created by admin 1 at round 1. -/
def dW0 : Disp.DispState := Disp.dispInit 1 1

/-- ... then juror 2 registers at round 11. -/
def dW1 : Disp.DispState :=
  exceptGetD (Except.map Prod.fst (Disp.register_juror dW0 2 11)) dW0

/-- ... then juror 2 files dispute 1 on policy 7 at round 51. -/
def dW2 : Disp.DispState :=
  exceptGetD (Except.map Prod.fst (Disp.create_dispute dW1 2 51 7)) dW1

/-- An active dispute on policy 5 with the given tallies and voting
deadline 1000. -/
def ddQ (yes no : Nat) : Disp.DisputeData :=
  ⟨5, 2, "claim", 0, 0, yes, no, yes + no, 1000, 0⟩

/-- A registered juror with the given last-vote round. -/
def jurorW (a : Address) (last : Nat) : Disp.JurorData :=
  ⟨a, 100, 0, 0, 0, last, 1000000⟩

/-- A dispute-contract state holding one active dispute with the given
tallies, one registered juror (address 7, never voted) carrying an
assignment record, and the insurance link set (address 9). -/
def dVoteState (yes no : Nat) : Disp.DispState :=
  { admin := 1, insurance_contract := 9, next_dispute_id := 2, total_jurors := 1,
    contract_creation_round := 1, voting_duration_rounds := 1000,
    min_stake_amount := 1000000,
    disputes := [(1, ddQ yes no)],
    jurors := [(7, jurorW 7 0)],
    dispute_jurors := [],
    juror_disputes := [(Disp.assignKey 7, [BChunk.str "assigned"])],
    juror_votes := [],
    stats := ⟨0, 0, 0, 0, 0⟩, event_log := [], next_event_id := 1 }

/-- Variant where juror 7 last voted at round 40 and has a recorded
vote. -/
def dVotedState : Disp.DispState :=
  { dVoteState 3 3 with
    jurors := [(7, jurorW 7 40)],
    juror_votes := [(Disp.voteKey 7, ⟨7, 1, 40, 1⟩)] }

/-- A no-vote by assigned juror 7 on the 3-3 dispute at round 50: the
seventh vote, resolving the dispute as Rejected. -/
def c4Out : Disp.DispState × Disp.VoteEffects × Nat :=
  exceptGetD (Disp.vote_on_dispute (dVoteState 3 3) 7 50 1 0)
    (dVoteState 3 3, Disp.noEffects, 0)

/-- Insurance contract freshly created by admin 1 at round 1. -/
def iW0 : Ins.InsState := Ins.insInit 1 1

/-- ... then the admin registers oracle 3. -/
def iW1 : Ins.InsState := exceptGetD (Ins.set_oracle iW0 1 3) iW0

/-- ... then account 2 stores a policy through the unvalidated
`buy_policy` path (statistics stay zero). -/
def c1CState : Ins.InsState := (Ins.buy_policy iW1 2 [] 10 200 5 0 0 0 4).1

/-- ... or instead through `buy_policy_with_payment`
(`active_policies` becomes 1). -/
def c1WState : Ins.InsState :=
  exceptGetD
    (Except.map Prod.fst (Ins.buy_policy_with_payment iW1 2 1 2 [] 10 200 5 0 0 0 4))
    iW1

/-- `buy_policy` called with t0 = 5 ≥ t1 = 3, cap = 0 and fee = 0. -/
def c6COut : Ins.InsState × Nat := Ins.buy_policy iW0 2 [] 5 3 0 0 0 0 0

/-- Policy 1 bought (coverage window 1500..1700) through the validated
path. -/
def c7S1 : Ins.InsState :=
  exceptGetD
    (Except.map Prod.fst (Ins.buy_policy_with_payment iW1 2 1 2 [] 1500 1700 5 0 0 0 2))
    iW1

/-- ... then settled by the oracle at round 1500 (rejected, payout 0). -/
def c7State : Ins.InsState :=
  exceptGetD (Except.map (fun x => x.1) (Ins.oracle_settle c7S1 3 1500 1 0)) c7S1

/-! ## Basic lemmas about the box-map model -/

theorem boxGet_boxSet_same {κ ν : Type} [DecidableEq κ]
    (m : List (κ × ν)) (k : κ) (v : ν) : boxGet (boxSet m k v) k = some v := by
  induction m with
  | nil => simp [boxSet, boxGet]
  | cons hd tl ih =>
    obtain ⟨k0, v0⟩ := hd
    by_cases h : k0 = k <;> simp [boxSet, boxGet, h, ih]

theorem boxGet_boxSet_other {κ ν : Type} [DecidableEq κ]
    (m : List (κ × ν)) (k k' : κ) (v : ν) (h : k' ≠ k) :
    boxGet (boxSet m k v) k' = boxGet m k' := by
  have h2 : ¬ k = k' := fun h3 => h h3.symm
  induction m with
  | nil => simp [boxSet, boxGet, h2]
  | cons hd tl ih =>
    obtain ⟨k0, v0⟩ := hd
    by_cases h0 : k0 = k
    · subst h0
      simp [boxSet, boxGet, h2]
    · by_cases h1 : k0 = k' <;> simp [boxSet, boxGet, h0, h1, h, ih]

theorem boxSet_boxSet {κ ν : Type} [DecidableEq κ]
    (m : List (κ × ν)) (k : κ) (a b : ν) :
    boxSet (boxSet m k a) k b = boxSet m k b := by
  induction m with
  | nil => simp [boxSet]
  | cons hd tl ih =>
    obtain ⟨k0, v0⟩ := hd
    by_cases h : k0 = k <;> simp [boxSet, h, ih]

theorem boxGet_boxDel_same {κ ν : Type} [DecidableEq κ]
    (m : List (κ × ν)) (k : κ) : boxGet (boxDel m k) k = none := by
  induction m with
  | nil => simp [boxDel, boxGet]
  | cons hd tl ih =>
    obtain ⟨k0, v0⟩ := hd
    by_cases h : k0 = k <;> simp [boxDel, boxGet, h, ih]

theorem boxGet_boxDel_other {κ ν : Type} [DecidableEq κ]
    (m : List (κ × ν)) (k k' : κ) (h : k' ≠ k) :
    boxGet (boxDel m k) k' = boxGet m k' := by
  have h2 : ¬ k = k' := fun h3 => h h3.symm
  induction m with
  | nil => simp [boxDel]
  | cons hd tl ih =>
    obtain ⟨k0, v0⟩ := hd
    by_cases h0 : k0 = k
    · subst h0
      simp [boxDel, boxGet, h2, ih]
    · simp [boxDel, boxGet, h0, ih]

theorem maybeBox_of_get_some {κ ν : Type} [DecidableEq κ]
    (zero v : ν) (m : List (κ × ν)) (k : κ) (h : boxGet m k = some v) :
    maybeBox zero m k = (v, true) := by
  simp [maybeBox, h]

theorem maybeBox_of_get_none {κ ν : Type} [DecidableEq κ]
    (zero : ν) (m : List (κ × ν)) (k : κ) (h : boxGet m k = none) :
    maybeBox zero m k = (zero, false) := by
  simp [maybeBox, h]

theorem maybeBox_snd_true {κ ν : Type} [DecidableEq κ]
    (zero : ν) (m : List (κ × ν)) (k : κ)
    (h : (maybeBox zero m k).2 = true) :
    boxGet m k = some (maybeBox zero m k).1 := by
  unfold maybeBox at h ⊢
  cases h2 : boxGet m k with
  | none => simp [h2] at h
  | some v => simp [h2]

theorem maybeBox_snd_false {κ ν : Type} [DecidableEq κ]
    (zero : ν) (m : List (κ × ν)) (k : κ)
    (h : (maybeBox zero m k).2 = false) :
    boxGet m k = none := by
  unfold maybeBox at h
  cases h2 : boxGet m k with
  | none => rfl
  | some v => rw [h2] at h; simp at h

/-! ## Frame lemmas for the subroutines -/

theorem ins_log_event_fields (s : Ins.InsState) (pid : Nat) (o : Address)
    (a : String) (amt r : Nat) :
    Ins._log_event s pid o a amt r =
      { s with
        event_log := boxSet s.event_log s.next_event_id ⟨pid, o, a, r, amt⟩,
        next_event_id := s.next_event_id + 1 } := rfl

theorem ins_update_stats_frame (s s2 : Ins.InsState) (a : String) (c f : Nat)
    (h : Ins._update_stats s a c f = .ok s2) : s2 = { s with stats := s2.stats } := by
  unfold Ins._update_stats at h
  split_ifs at h
  · cases h; rfl
  · cases h3 : avmSub s.stats.active_policies 1 with
    | error e => simp only [h3] at h; cases h
    | ok n => simp only [h3] at h; cases h; rfl
  · cases h; rfl

theorem disp_update_stats_frame (s : Disp.DispState) (a : String) :
    Disp._update_stats s a = { s with stats := (Disp._update_stats s a).stats } := by
  unfold Disp._update_stats
  split_ifs <;> rfl

theorem disp_log_event_fields (s : Disp.DispState) (d : Nat) (j : Address)
    (a : String) (v r : Nat) :
    Disp._log_event s d j a v r =
      { s with
        event_log := boxSet s.event_log s.next_event_id ⟨d, a, j, r, v⟩,
        next_event_id := s.next_event_id + 1 } := rfl

theorem dUS_disputes (s : Disp.DispState) (a : String) :
    (Disp._update_stats s a).disputes = s.disputes := by
  rw [disp_update_stats_frame s a]

theorem dUS_jurors (s : Disp.DispState) (a : String) :
    (Disp._update_stats s a).jurors = s.jurors := by
  rw [disp_update_stats_frame s a]

theorem dUS_juror_disputes (s : Disp.DispState) (a : String) :
    (Disp._update_stats s a).juror_disputes = s.juror_disputes := by
  rw [disp_update_stats_frame s a]

theorem dUS_juror_votes (s : Disp.DispState) (a : String) :
    (Disp._update_stats s a).juror_votes = s.juror_votes := by
  rw [disp_update_stats_frame s a]

theorem dUS_insurance_contract (s : Disp.DispState) (a : String) :
    (Disp._update_stats s a).insurance_contract = s.insurance_contract := by
  rw [disp_update_stats_frame s a]

theorem dUS_next_dispute_id (s : Disp.DispState) (a : String) :
    (Disp._update_stats s a).next_dispute_id = s.next_dispute_id := by
  rw [disp_update_stats_frame s a]

theorem dUS_total_jurors (s : Disp.DispState) (a : String) :
    (Disp._update_stats s a).total_jurors = s.total_jurors := by
  rw [disp_update_stats_frame s a]

theorem dLE_disputes (s : Disp.DispState) (d : Nat) (j : Address)
    (a : String) (v r : Nat) : (Disp._log_event s d j a v r).disputes = s.disputes := rfl

theorem dLE_jurors (s : Disp.DispState) (d : Nat) (j : Address)
    (a : String) (v r : Nat) : (Disp._log_event s d j a v r).jurors = s.jurors := rfl

theorem dLE_juror_disputes (s : Disp.DispState) (d : Nat) (j : Address)
    (a : String) (v r : Nat) :
    (Disp._log_event s d j a v r).juror_disputes = s.juror_disputes := rfl

theorem dLE_juror_votes (s : Disp.DispState) (d : Nat) (j : Address)
    (a : String) (v r : Nat) :
    (Disp._log_event s d j a v r).juror_votes = s.juror_votes := rfl

theorem dLE_insurance_contract (s : Disp.DispState) (d : Nat) (j : Address)
    (a : String) (v r : Nat) :
    (Disp._log_event s d j a v r).insurance_contract = s.insurance_contract := rfl

theorem dLE_next_dispute_id (s : Disp.DispState) (d : Nat) (j : Address)
    (a : String) (v r : Nat) :
    (Disp._log_event s d j a v r).next_dispute_id = s.next_dispute_id := rfl

theorem dLE_total_jurors (s : Disp.DispState) (d : Nat) (j : Address)
    (a : String) (v r : Nat) :
    (Disp._log_event s d j a v r).total_jurors = s.total_jurors := rfl

/-! ## The juror-selection stub -/

/-- Because `_get_juror_address_by_index` always returns the empty byte
string, the selection loop selects nobody and writes nothing. -/
theorem selectJurorsGo_const (fuel : Nat) : ∀ (i total c : Nat) (sel : Bytes)
    (jd : List (Bytes × Bytes)), Disp.selectJurorsGo fuel i total c sel jd = (sel, jd) := by
  induction fuel with
  | zero => intro i total c sel jd; rfl
  | succ f ih =>
    intro i total c sel jd
    unfold Disp.selectJurorsGo
    split_ifs with h
    · simpa [Disp._get_juror_address_by_index] using ih (i + 1) total c sel jd
    · rfl

/-- `_select_jurors` stores an empty juror selection and leaves
`juror_disputes` untouched. -/
theorem select_jurors_char (s : Disp.DispState) (d : Nat) :
    Disp._select_jurors s d =
      { s with dispute_jurors := boxSet s.dispute_jurors d [] } := by
  simp only [Disp._select_jurors, selectJurorsGo_const]

/-! ## Characterization of `vote_on_dispute` -/

/-- State and effects of a vote that passed all checks, in terms of the
pre-state. -/
theorem voteApply_char (s : Disp.DispState) (caller : Address)
    (round did v : Nat) :
    ((Disp.voteApply s caller round did v).1).disputes =
      boxSet s.disputes did
        (Disp.voteFinalDD ((maybeBox Disp.disputeZero s.disputes did).1) v round) ∧
    ((Disp.voteApply s caller round did v).1).juror_votes =
      boxSet s.juror_votes (Disp.voteKey caller) ⟨caller, v, round, did⟩ ∧
    ((Disp.voteApply s caller round did v).1).juror_disputes = s.juror_disputes ∧
    ((Disp.voteApply s caller round did v).1).jurors =
      boxSet s.jurors caller
        { (maybeBox Disp.jurorZero s.jurors caller).1 with
          last_vote_round := round,
          total_votes := ((maybeBox Disp.jurorZero s.jurors caller).1).total_votes + 1 } ∧
    ((Disp.voteApply s caller round did v).1).insurance_contract = s.insurance_contract ∧
    ((Disp.voteApply s caller round did v).1).next_dispute_id = s.next_dispute_id ∧
    ((Disp.voteApply s caller round did v).2) =
      (if 7 ≤ (Disp.tallyDD ((maybeBox Disp.disputeZero s.disputes did).1) v).total_votes then
        (if s.insurance_contract ≠ 0 then
          Disp._trigger_insurance_settlement
            (Disp.voteFinalDD ((maybeBox Disp.disputeZero s.disputes did).1) v round).policy_id
            (Disp.voteFinalDD ((maybeBox Disp.disputeZero s.disputes did).1) v round).status
        else Disp.noEffects)
      else Disp.noEffects) := by
  by_cases hq :
      7 ≤ (Disp.tallyDD ((maybeBox Disp.disputeZero s.disputes did).1) v).total_votes
  · simp [Disp.voteApply, Disp.voteFinalDD, hq, dUS_disputes, dUS_jurors,
      dUS_juror_disputes, dUS_juror_votes, dUS_insurance_contract,
      dUS_next_dispute_id, dLE_disputes, dLE_jurors, dLE_juror_disputes,
      dLE_juror_votes, dLE_insurance_contract, dLE_next_dispute_id,
      boxSet_boxSet]
  · simp [Disp.voteApply, Disp.voteFinalDD, hq, dUS_disputes, dUS_jurors,
      dUS_juror_disputes, dUS_juror_votes, dUS_insurance_contract,
      dUS_next_dispute_id, dLE_disputes, dLE_jurors, dLE_juror_disputes,
      dLE_juror_votes, dLE_insurance_contract, dLE_next_dispute_id]

/-- When every check passes, `vote_on_dispute` succeeds and applies
`voteApply`. -/
theorem vote_of_preconds (s : Disp.DispState) (caller : Address)
    (round did v : Nat) (h : Disp.votePreconds s caller round did) :
    Disp.vote_on_dispute s caller round did v =
      .ok ((Disp.voteApply s caller round did v).1,
           (Disp.voteApply s caller round did v).2, 1) := by
  obtain ⟨h1, h2, h3, h4, h5, h6, h7, h8⟩ := h
  simp [Disp.vote_on_dispute, h1, h3, h4, h5, h8, avmSub, h6,
    Nat.not_lt.mpr h2, Nat.not_lt.mpr h7]

/-- Every `vote_on_dispute` call lands in exactly one of four branches:
silent rejection (return 0, state unchanged), cooldown-subtraction
underflow, cooldown failure, or full success. -/
theorem vote_cases (s : Disp.DispState) (caller : Address) (round did v : Nat) :
    Disp.vote_on_dispute s caller round did v = .ok (s, Disp.noEffects, 0) ∨
    (Disp.vote_on_dispute s caller round did v = .error .underflow ∧
      (maybeBox ([] : Bytes) s.juror_disputes (Disp.assignKey caller)).2 = true ∧
      round < ((maybeBox Disp.jurorZero s.jurors caller).1).last_vote_round) ∨
    (Disp.vote_on_dispute s caller round did v = .error .tooSoon ∧
      (maybeBox ([] : Bytes) s.juror_disputes (Disp.assignKey caller)).2 = true ∧
      round - ((maybeBox Disp.jurorZero s.jurors caller).1).last_vote_round < 10) ∨
    (Disp.votePreconds s caller round did ∧
      Disp.vote_on_dispute s caller round did v =
        .ok ((Disp.voteApply s caller round did v).1,
             (Disp.voteApply s caller round did v).2, 1)) := by
  cases hb1 : (maybeBox Disp.disputeZero s.disputes did).2 with
  | false => left; simp [Disp.vote_on_dispute, hb1]
  | true =>
    by_cases h2 : ((maybeBox Disp.disputeZero s.disputes did).1).voting_deadline < round
    · left; simp [Disp.vote_on_dispute, hb1, h2]
    · by_cases h3 : ((maybeBox Disp.disputeZero s.disputes did).1).status = 0
      case neg => left; simp [Disp.vote_on_dispute, hb1, h2, h3]
      case pos =>
        cases hb4 : (maybeBox Disp.jurorZero s.jurors caller).2 with
        | false => left; simp [Disp.vote_on_dispute, hb1, h2, h3, hb4]
        | true =>
          cases hb5 : (maybeBox ([] : Bytes) s.juror_disputes (Disp.assignKey caller)).2 with
          | false => left; simp [Disp.vote_on_dispute, hb1, h2, h3, hb4, hb5]
          | true =>
            by_cases h6 : ((maybeBox Disp.jurorZero s.jurors caller).1).last_vote_round ≤ round
            · by_cases h7 : round - ((maybeBox Disp.jurorZero s.jurors caller).1).last_vote_round < 10
              · right; right; left
                refine ⟨?_, rfl, h7⟩
                simp [Disp.vote_on_dispute, hb1, h2, h3, hb4, hb5, avmSub, h6, h7]
              · cases hb8 : (maybeBox Disp.voteZero s.juror_votes (Disp.voteKey caller)).2 with
                | true =>
                  left
                  simp [Disp.vote_on_dispute, hb1, h2, h3, hb4, hb5, avmSub, h6, h7, hb8]
                | false =>
                  right; right; right
                  refine ⟨⟨hb1, Nat.not_lt.mp h2, h3, hb4, hb5, h6, Nat.not_lt.mp h7, hb8⟩, ?_⟩
                  simp [Disp.vote_on_dispute, hb1, h2, h3, hb4, hb5, avmSub, h6, h7, hb8]
            · right; left
              refine ⟨?_, rfl, Nat.not_le.mp h6⟩
              simp [Disp.vote_on_dispute, hb1, h2, h3, hb4, hb5, avmSub, h6]

/-- Inversion: a successful vote (return value 1) passed every check and
produced exactly `voteApply`. -/
theorem vote_success_inv (s s2 : Disp.DispState) (caller : Address)
    (round did v : Nat) (eff : Disp.VoteEffects)
    (h : Disp.vote_on_dispute s caller round did v = .ok (s2, eff, 1)) :
    Disp.votePreconds s caller round did ∧
    s2 = (Disp.voteApply s caller round did v).1 ∧
    eff = (Disp.voteApply s caller round did v).2 := by
  rcases vote_cases s caller round did v with h0 | h0 | h0 | h0
  · exact absurd (h0.symm.trans h) (by simp)
  · exact absurd (h0.1.symm.trans h) (by simp)
  · exact absurd (h0.1.symm.trans h) (by simp)
  · have h2 := h0.2.symm.trans h
    simp only [Except.ok.injEq, Prod.mk.injEq] at h2
    exact ⟨h0.1, h2.1.symm, h2.2.1.symm⟩

/-- Inversion: any `.ok` outcome of a vote either left the state
unchanged with return value 0, or was a full success. -/
theorem vote_ok_inv (s s2 : Disp.DispState) (caller : Address)
    (round did v ret : Nat) (eff : Disp.VoteEffects)
    (h : Disp.vote_on_dispute s caller round did v = .ok (s2, eff, ret)) :
    (s2 = s ∧ eff = Disp.noEffects ∧ ret = 0) ∨
    (Disp.votePreconds s caller round did ∧
      s2 = (Disp.voteApply s caller round did v).1 ∧
      eff = (Disp.voteApply s caller round did v).2 ∧ ret = 1) := by
  rcases vote_cases s caller round did v with h0 | h0 | h0 | h0
  · left
    have h2 := h0.symm.trans h
    simp only [Except.ok.injEq, Prod.mk.injEq] at h2
    exact ⟨h2.1.symm, h2.2.1.symm, h2.2.2.symm⟩
  · exact absurd (h0.1.symm.trans h) (by simp)
  · exact absurd (h0.1.symm.trans h) (by simp)
  · right
    have h2 := h0.2.symm.trans h
    simp only [Except.ok.injEq, Prod.mk.injEq] at h2
    exact ⟨h0.1, h2.1.symm, h2.2.1.symm, h2.2.2.symm⟩

/-! ## Frames of the other dispute-contract operations -/

theorem set_insurance_char (s s2 : Disp.DispState) (sender a : Address)
    (ret : Nat) (h : Disp.set_insurance_contract s sender a = .ok (s2, ret)) :
    s2 = { s with insurance_contract := a } := by
  unfold Disp.set_insurance_contract at h
  split_ifs at h
  cases h
  rfl

theorem register_frame (s s2 : Disp.DispState) (caller : Address)
    (round ret : Nat) (h : Disp.register_juror s caller round = .ok (s2, ret)) :
    s2.disputes = s.disputes ∧ s2.juror_disputes = s.juror_disputes := by
  unfold Disp.register_juror at h
  split_ifs at h
  · cases h; exact ⟨rfl, rfl⟩
  · cases h
    constructor
    · rw [dLE_disputes, dUS_disputes]
    · rw [dLE_juror_disputes, dUS_juror_disputes]

theorem create_frame (s s2 : Disp.DispState) (caller : Address)
    (round pid ret : Nat)
    (h : Disp.create_dispute s caller round pid = .ok (s2, ret)) :
    s2.juror_disputes = s.juror_disputes ∧
    (s2.disputes = s.disputes ∨
      s2.disputes = boxSet s.disputes s.next_dispute_id
        (Disp.newDisputeData pid caller round s.voting_duration_rounds)) := by
  unfold Disp.create_dispute at h
  split_ifs at h
  · cases h; exact ⟨rfl, Or.inl rfl⟩
  · cases h
    constructor
    · rw [dLE_juror_disputes, dUS_juror_disputes, select_jurors_char]
    · right
      rw [dLE_disputes, dUS_disputes, select_jurors_char]

theorem mark_frame (s s2 : Disp.DispState) (sender : Address)
    (round did ret : Nat)
    (h : Disp.mark_dispute_processed s sender round did = .ok (s2, ret)) :
    s2.juror_disputes = s.juror_disputes ∧
    (s2.disputes = s.disputes ∨
      s2.disputes = boxSet s.disputes did
        { (maybeBox Disp.disputeZero s.disputes did).1 with status := 3 }) := by
  unfold Disp.mark_dispute_processed at h
  by_cases hadmin : sender ≠ s.admin
  · rw [if_pos hadmin] at h; cases h
  · rw [if_neg hadmin] at h
    by_cases hex : (maybeBox Disp.disputeZero s.disputes did).2 = false
    · rw [if_pos hex] at h; cases h; exact ⟨rfl, Or.inl rfl⟩
    · rw [if_neg hex] at h
      cases h
      constructor
      · rw [dLE_juror_disputes, dUS_juror_disputes]
      · right
        rw [dLE_disputes, dUS_disputes]

/-! ## Reachability invariants of the dispute contract -/

/-- Tallying and (possibly) resolving preserve the vote-count sum. -/
theorem voteFinalDD_sum (dd : Disp.DisputeData) (v r : Nat)
    (h : dd.total_votes = dd.yes_votes + dd.no_votes) :
    (Disp.voteFinalDD dd v r).total_votes =
      (Disp.voteFinalDD dd v r).yes_votes + (Disp.voteFinalDD dd v r).no_votes := by
  unfold Disp.voteFinalDD Disp.resolveDD Disp.tallyDD
  split_ifs <;> simp <;> omega

/-- In every reachable state of the dispute contract the juror-assignment
store is empty: the selection stub never records an assignment and no
other operation writes `juror_disputes`. -/
theorem reachable_juror_disputes_empty (s : Disp.DispState)
    (h : DReachable s) : s.juror_disputes = [] := by
  induction h with
  | init admin round => rfl
  | @step s0 s2 hr hstep ih =>
    cases hstep with
    | set_insurance =>
      rename_i h0
      rw [set_insurance_char _ _ _ _ _ h0]; exact ih
    | register =>
      rename_i h0
      rw [(register_frame _ _ _ _ _ h0).2]; exact ih
    | create =>
      rename_i h0
      rw [(create_frame _ _ _ _ _ _ h0).1]; exact ih
    | vote =>
      rename_i caller round did v eff ret h0
      rcases vote_ok_inv _ _ _ _ _ _ _ _ h0 with ⟨h1, _, _⟩ | ⟨_, h1, _, _⟩
      · rw [h1]; exact ih
      · rw [h1, (voteApply_char s0 caller round did v).2.2.1]; exact ih
    | processed =>
      rename_i h0
      rw [(mark_frame _ _ _ _ _ _ h0).1]; exact ih

/-- In every reachable state of the dispute contract, every stored
dispute satisfies `total_votes = yes_votes + no_votes`. -/
theorem reachable_votesConsistent (s : Disp.DispState)
    (h : DReachable s) : votesConsistent s := by
  induction h with
  | init admin round =>
    intro id dd hget
    simp [Disp.dispInit, Disp._log_event, boxGet] at hget
  | @step s0 s2 hr hstep ih =>
    cases hstep with
    | set_insurance =>
      rename_i h0
      intro id dd hget
      rw [set_insurance_char _ _ _ _ _ h0] at hget
      exact ih id dd hget
    | register =>
      rename_i h0
      intro id dd hget
      rw [(register_frame _ _ _ _ _ h0).1] at hget
      exact ih id dd hget
    | create =>
      rename_i caller round pid ret h0
      intro id dd hget
      rcases (create_frame _ _ _ _ _ _ h0).2 with h1 | h1
      · rw [h1] at hget; exact ih id dd hget
      · rw [h1] at hget
        by_cases hid : id = s0.next_dispute_id
        · subst hid
          rw [boxGet_boxSet_same] at hget
          cases hget
          rfl
        · rw [boxGet_boxSet_other _ _ _ _ hid] at hget
          exact ih id dd hget
    | vote =>
      rename_i caller round did v eff ret h0
      intro id dd hget
      rcases vote_ok_inv _ _ _ _ _ _ _ _ h0 with ⟨h1, _, _⟩ | ⟨hpre, h1, _, _⟩
      · rw [h1] at hget; exact ih id dd hget
      · rw [h1, (voteApply_char s0 caller round did v).1] at hget
        by_cases hid : id = did
        · subst hid
          rw [boxGet_boxSet_same] at hget
          cases hget
          exact voteFinalDD_sum _ _ _ (ih id _ (maybeBox_snd_true _ _ _ hpre.1))
        · rw [boxGet_boxSet_other _ _ _ _ hid] at hget
          exact ih id dd hget
    | processed =>
      rename_i sender round did ret h0
      intro id dd hget
      rcases (mark_frame _ _ _ _ _ _ h0).2 with h1 | h1
      · rw [h1] at hget; exact ih id dd hget
      · rw [h1] at hget
        by_cases hid : id = did
        · subst hid
          rw [boxGet_boxSet_same] at hget
          cases hget
          cases hmb : (maybeBox Disp.disputeZero s0.disputes id).2 with
          | true =>
            have h4 := ih id ((maybeBox Disp.disputeZero s0.disputes id).1)
              (maybeBox_snd_true _ _ _ hmb)
            exact h4
          | false =>
            have hz : (maybeBox Disp.disputeZero s0.disputes id).1 = Disp.disputeZero := by
              rw [maybeBox_of_get_none _ _ _ (maybeBox_snd_false _ _ _ hmb)]
            rw [hz]
            rfl
        · rw [boxGet_boxSet_other _ _ _ _ hid] at hget
          exact ih id dd hget

/-! ## Projections of the tally and resolution updates -/

theorem tallyDD_total (dd : Disp.DisputeData) (v : Nat) :
    (Disp.tallyDD dd v).total_votes = dd.total_votes + 1 := by
  unfold Disp.tallyDD; split_ifs <;> rfl

theorem tallyDD_yes (dd : Disp.DisputeData) (v : Nat) :
    (Disp.tallyDD dd v).yes_votes =
      if v = 1 then dd.yes_votes + 1 else dd.yes_votes := by
  unfold Disp.tallyDD; split_ifs <;> rfl

theorem tallyDD_no (dd : Disp.DisputeData) (v : Nat) :
    (Disp.tallyDD dd v).no_votes =
      if v = 1 then dd.no_votes else dd.no_votes + 1 := by
  unfold Disp.tallyDD; split_ifs <;> rfl

theorem tallyDD_status (dd : Disp.DisputeData) (v : Nat) :
    (Disp.tallyDD dd v).status = dd.status := by
  unfold Disp.tallyDD; split_ifs <;> rfl

theorem tallyDD_policy (dd : Disp.DisputeData) (v : Nat) :
    (Disp.tallyDD dd v).policy_id = dd.policy_id := by
  unfold Disp.tallyDD; split_ifs <;> rfl

theorem tallyDD_resolution (dd : Disp.DisputeData) (v : Nat) :
    (Disp.tallyDD dd v).resolution_round = dd.resolution_round := by
  unfold Disp.tallyDD; split_ifs <;> rfl

theorem resolveDD_status (dd : Disp.DisputeData) (r : Nat) :
    (Disp.resolveDD dd r).status = if 4 ≤ dd.yes_votes then 1 else 2 := by
  unfold Disp.resolveDD; split_ifs <;> rfl

theorem resolveDD_resolution (dd : Disp.DisputeData) (r : Nat) :
    (Disp.resolveDD dd r).resolution_round = r := by
  unfold Disp.resolveDD; split_ifs <;> rfl

theorem resolveDD_policy (dd : Disp.DisputeData) (r : Nat) :
    (Disp.resolveDD dd r).policy_id = dd.policy_id := by
  unfold Disp.resolveDD; split_ifs <;> rfl

theorem resolveDD_total (dd : Disp.DisputeData) (r : Nat) :
    (Disp.resolveDD dd r).total_votes = dd.total_votes := by
  unfold Disp.resolveDD; split_ifs <;> rfl

theorem resolveDD_yes (dd : Disp.DisputeData) (r : Nat) :
    (Disp.resolveDD dd r).yes_votes = dd.yes_votes := by
  unfold Disp.resolveDD; split_ifs <;> rfl

theorem voteFinalDD_total (dd : Disp.DisputeData) (v r : Nat) :
    (Disp.voteFinalDD dd v r).total_votes = dd.total_votes + 1 := by
  unfold Disp.voteFinalDD
  split_ifs
  · rw [resolveDD_total, tallyDD_total]
  · rw [tallyDD_total]

/-! ## Claim theorems -/

/-- C3.  For every dispute record in every reachable state of the
dispute contract (after `create_dispute` and any sequence of
`vote_on_dispute` and other calls), the stored `total_votes` equals
`yes_votes + no_votes`. -/
theorem c3_vote_sum_invariant (s : Disp.DispState) (h : DReachable s)
    (id : Nat) (dd : Disp.DisputeData)
    (hget : boxGet s.disputes id = some dd) :
    dd.total_votes = dd.yes_votes + dd.no_votes :=
  reachable_votesConsistent s h id dd hget

/-- The concrete reachable state `dW2` (create, register, create_dispute)
is indeed reachable. -/
theorem dW2_reachable : DReachable dW2 := by
  have h0 : DReachable dW0 := DReachable.init 1 1
  have h1 : DReachable dW1 :=
    h0.step (DStep.register dW0 2 11 dW1 1 (by decide))
  exact h1.step (DStep.create dW1 2 51 7 dW2 1 (by decide))

/-- Witness for C3: in the concrete reachable state `dW2`, dispute 1 is
stored and satisfies the invariant. -/
theorem c3_witness :
    boxGet dW2.disputes 1 = some (Disp.newDisputeData 7 2 51 1000) ∧
    (Disp.newDisputeData 7 2 51 1000).total_votes =
      (Disp.newDisputeData 7 2 51 1000).yes_votes +
        (Disp.newDisputeData 7 2 51 1000).no_votes :=
  ⟨by decide, c3_vote_sum_invariant dW2 dW2_reachable 1 _ (by decide)⟩

/-- C5.  In every reachable state of the dispute contract the
juror-assignment store `juror_disputes` is empty (the juror-selection
helper returns empty bytes, so `_select_jurors` records nothing), and
consequently every `vote_on_dispute` call — in particular any call on an
existing, unexpired, unresolved dispute by a registered juror — fails the
assignment check and returns 0 leaving the state unchanged; no vote
ever succeeds and no dispute is resolved through voting. -/
theorem c5_assignment_stub (s : Disp.DispState) (h : DReachable s) :
    s.juror_disputes = [] ∧
    ∀ (caller : Address) (round did v : Nat),
      Disp.vote_on_dispute s caller round did v = .ok (s, Disp.noEffects, 0) := by
  have hempty := reachable_juror_disputes_empty s h
  refine ⟨hempty, fun caller round did v => ?_⟩
  have hna : (maybeBox ([] : Bytes) s.juror_disputes (Disp.assignKey caller)).2 = false := by
    rw [hempty]; rfl
  rcases vote_cases s caller round did v with h0 | h0 | h0 | h0
  · exact h0
  · rw [h0.2.1] at hna; cases hna
  · rw [h0.2.1] at hna; cases hna
  · have := h0.1.2.2.2.2.1
    rw [this] at hna; cases hna

/-- Witness for C5: in the reachable state `dW2` holding active dispute 1
and registered juror 2, a vote by that juror is rejected with return
value 0 and no state change. -/
theorem c5_witness :
    boxGet dW2.disputes 1 = some (Disp.newDisputeData 7 2 51 1000) ∧
    (maybeBox Disp.jurorZero dW2.jurors 2).2 = true ∧
    Disp.vote_on_dispute dW2 2 60 1 1 = .ok (dW2, Disp.noEffects, 0) :=
  ⟨by decide, by decide, (c5_assignment_stub dW2 dW2_reachable).2 2 60 1 1⟩

/-- C2.  A successful `vote_on_dispute` call resolves the dispute exactly
when it brings `total_votes` to at least 7; at that moment the status
becomes 1 (Approved) when the tallied `yes_votes` reach 4 and 2
(Rejected) otherwise, and `resolution_round` is recorded.  Any vote call
succeeds exactly under `votePreconds` (second conjunct), and a vote call
against a dispute whose status is already non-Active is rejected with
return value 0 and no state or tally change (third conjunct). -/
theorem c2_quorum_resolution (s : Disp.DispState) (caller : Address)
    (round did v : Nat) :
    (Disp.votePreconds s caller round did →
      (Disp.vote_on_dispute s caller round did v =
        .ok ((Disp.voteApply s caller round did v).1,
             (Disp.voteApply s caller round did v).2, 1) ∧
       boxGet ((Disp.voteApply s caller round did v).1).disputes did =
         some (Disp.voteFinalDD ((maybeBox Disp.disputeZero s.disputes did).1) v round) ∧
       (Disp.voteFinalDD ((maybeBox Disp.disputeZero s.disputes did).1) v round).total_votes =
         ((maybeBox Disp.disputeZero s.disputes did).1).total_votes + 1 ∧
       ((Disp.voteFinalDD ((maybeBox Disp.disputeZero s.disputes did).1) v round).status ≠ 0 ↔
         7 ≤ ((maybeBox Disp.disputeZero s.disputes did).1).total_votes + 1) ∧
       (7 ≤ ((maybeBox Disp.disputeZero s.disputes did).1).total_votes + 1 →
         (Disp.voteFinalDD ((maybeBox Disp.disputeZero s.disputes did).1) v round).status =
           (if 4 ≤ (Disp.tallyDD ((maybeBox Disp.disputeZero s.disputes did).1) v).yes_votes
            then 1 else 2) ∧
         (Disp.voteFinalDD ((maybeBox Disp.disputeZero s.disputes did).1) v round).resolution_round = round) ∧
       (((maybeBox Disp.disputeZero s.disputes did).1).total_votes + 1 < 7 →
         (Disp.voteFinalDD ((maybeBox Disp.disputeZero s.disputes did).1) v round).status = 0 ∧
         (Disp.voteFinalDD ((maybeBox Disp.disputeZero s.disputes did).1) v round).resolution_round =
           ((maybeBox Disp.disputeZero s.disputes did).1).resolution_round))) ∧
    (∀ (s2 : Disp.DispState) (eff : Disp.VoteEffects),
      Disp.vote_on_dispute s caller round did v = .ok (s2, eff, 1) →
      Disp.votePreconds s caller round did) ∧
    ((maybeBox Disp.disputeZero s.disputes did).2 = true →
      ((maybeBox Disp.disputeZero s.disputes did).1).status ≠ 0 →
      Disp.vote_on_dispute s caller round did v = .ok (s, Disp.noEffects, 0)) := by
  refine ⟨?_, ?_, ?_⟩
  · intro hpre
    obtain ⟨hp1, hp2, hp3, hp4, hp5, hp6, hp7, hp8⟩ := hpre
    refine ⟨vote_of_preconds s caller round did v ⟨hp1, hp2, hp3, hp4, hp5, hp6, hp7, hp8⟩, ?_, ?_, ?_, ?_, ?_⟩
    · rw [(voteApply_char s caller round did v).1, boxGet_boxSet_same]
    · exact voteFinalDD_total _ _ _
    · unfold Disp.voteFinalDD
      rw [tallyDD_total]
      by_cases hq : 7 ≤ ((maybeBox Disp.disputeZero s.disputes did).1).total_votes + 1
      · rw [if_pos hq, resolveDD_status]
        constructor
        · intro _; exact hq
        · intro _
          split_ifs <;> omega
      · rw [if_neg hq, tallyDD_status, hp3]
        constructor
        · intro hc; exact absurd rfl hc
        · intro hc; exact absurd hc hq
    · intro hq
      unfold Disp.voteFinalDD
      rw [tallyDD_total, if_pos hq, resolveDD_status, resolveDD_resolution]
      exact ⟨rfl, rfl⟩
    · intro hq
      unfold Disp.voteFinalDD
      rw [tallyDD_total, if_neg (by omega), tallyDD_status, tallyDD_resolution, hp3]
      exact ⟨rfl, rfl⟩
  · intro s2 eff h
    exact (vote_success_inv s s2 caller round did v eff h).1
  · intro hex hst
    by_cases hdl : ((maybeBox Disp.disputeZero s.disputes did).1).voting_deadline < round
    · simp [Disp.vote_on_dispute, hex, hdl]
    · simp [Disp.vote_on_dispute, hex, hdl, hst]

/-- Witness for C2: on the 3-3 dispute, a yes-vote by assigned juror 7 at
round 50 is the seventh vote; it succeeds and resolves the dispute as
Approved (status 1) with resolution round 50. -/
theorem c2_witness :
    Disp.votePreconds (dVoteState 3 3) 7 50 1 ∧
    boxGet ((Disp.voteApply (dVoteState 3 3) 7 50 1 1).1).disputes 1 =
      some (Disp.voteFinalDD ((maybeBox Disp.disputeZero (dVoteState 3 3).disputes 1).1) 1 50) ∧
    Disp.voteFinalDD ((maybeBox Disp.disputeZero (dVoteState 3 3).disputes 1).1) 1 50 =
      ⟨5, 2, "claim", 0, 1, 4, 3, 7, 1000, 50⟩ :=
  ⟨by decide,
   ((c2_quorum_resolution (dVoteState 3 3) 7 50 1 1).1 (by decide)).2.1,
   by decide⟩

theorem voteFinalDD_policy (dd : Disp.DisputeData) (v r : Nat) :
    (Disp.voteFinalDD dd v r).policy_id = dd.policy_id := by
  unfold Disp.voteFinalDD
  split_ifs
  · rw [resolveDD_policy, tallyDD_policy]
  · rw [tallyDD_policy]

theorem voteFinalDD_status_quorum (dd : Disp.DisputeData) (v r : Nat)
    (hq : 7 ≤ (Disp.tallyDD dd v).total_votes) :
    (Disp.voteFinalDD dd v r).status =
      if 4 ≤ (Disp.tallyDD dd v).yes_votes then 1 else 2 := by
  unfold Disp.voteFinalDD
  rw [if_pos hq, resolveDD_status]

/-- C4 (amended).  When a successful vote resolves a dispute and the
insurance-contract link is set, the `_trigger_insurance_settlement`
subroutine is invoked exactly once, with `insurance_approval` 1 when the
dispute is Approved and 0 when it is Rejected — in both cases, not only
the approved one.  The subroutine submits no settlement inner
transaction to the insurance contract (it only emits a monitoring log),
so `settleCalls` is empty even for an approved dispute.  When the vote
does not resolve the dispute, or the link is unset, the subroutine is
not invoked. -/
theorem c4_settlement_bridge (s : Disp.DispState) (caller : Address)
    (round did v : Nat) (h : Disp.votePreconds s caller round did) :
    Disp.vote_on_dispute s caller round did v =
      .ok ((Disp.voteApply s caller round did v).1,
           (Disp.voteApply s caller round did v).2, 1) ∧
    (7 ≤ (Disp.tallyDD ((maybeBox Disp.disputeZero s.disputes did).1) v).total_votes →
      s.insurance_contract ≠ 0 →
      (Disp.voteApply s caller round did v).2 =
        { bridgeCalls :=
            [⟨((maybeBox Disp.disputeZero s.disputes did).1).policy_id,
              if 4 ≤ (Disp.tallyDD ((maybeBox Disp.disputeZero s.disputes did).1) v).yes_votes
              then 1 else 0⟩],
          settleCalls := [] }) ∧
    ((Disp.tallyDD ((maybeBox Disp.disputeZero s.disputes did).1) v).total_votes < 7 →
      (Disp.voteApply s caller round did v).2 = Disp.noEffects) ∧
    (s.insurance_contract = 0 →
      (Disp.voteApply s caller round did v).2 = Disp.noEffects) := by
  refine ⟨vote_of_preconds s caller round did v h, ?_, ?_, ?_⟩
  · intro hq hins
    rw [(voteApply_char s caller round did v).2.2.2.2.2.2, if_pos hq, if_pos hins]
    unfold Disp._trigger_insurance_settlement
    rw [voteFinalDD_policy, voteFinalDD_status_quorum _ _ _ hq]
    by_cases hy :
        4 ≤ (Disp.tallyDD ((maybeBox Disp.disputeZero s.disputes did).1) v).yes_votes
    · rw [if_pos hy, if_pos hy]
      simp
    · rw [if_neg hy, if_neg hy]
      simp
  · intro hq
    rw [(voteApply_char s caller round did v).2.2.2.2.2.2, if_neg (Nat.not_le.mpr hq)]
  · intro hins
    rw [(voteApply_char s caller round did v).2.2.2.2.2.2]
    split_ifs with h1 h2
    · exact absurd hins h2
    · rfl
    · rfl

/-- Counterexample for C4: the 3-3 dispute receives a seventh vote of
"no" at round 50 and resolves as Rejected (status 2) — yet
`_trigger_insurance_settlement` is invoked (once, with approval 0),
while the claim says the bridge is never invoked on a rejection; and no
settlement inner transaction is submitted at all. -/
theorem c4_counterexample :
    c4Out.2.2 = 1 ∧
    boxGet c4Out.1.disputes 1 = some ⟨5, 2, "claim", 0, 2, 3, 4, 7, 1000, 50⟩ ∧
    c4Out.2.1.bridgeCalls = [⟨5, 0⟩] ∧
    c4Out.2.1.settleCalls = [] := by decide

/-- Witness for C4 (amended): the same seventh vote cast as "yes"
resolves the 3-3 dispute as Approved and invokes the bridge once with
approval 1. -/
theorem c4_witness :
    Disp.votePreconds (dVoteState 3 3) 7 50 1 ∧
    (Disp.voteApply (dVoteState 3 3) 7 50 1 1).2 =
      { bridgeCalls := [⟨5, 1⟩], settleCalls := [] } :=
  ⟨by decide,
   by
     have h := (c4_settlement_bridge (dVoteState 3 3) 7 50 1 1 (by decide)).2.1
       (by decide) (by decide)
     rw [h]
     decide⟩

theorem maybeBox_snd_of_isSome {κ ν : Type} [DecidableEq κ]
    (zero : ν) (m : List (κ × ν)) (k : κ)
    (h : (boxGet m k).isSome = true) : (maybeBox zero m k).2 = true := by
  unfold maybeBox
  cases h2 : boxGet m k with
  | none => rw [h2] at h; cases h
  | some v => rfl

/-- C8.  A successful vote by a juror records a write-once `VoteData`
under `voteKey caller`; once that key is present, every further vote
call by the same juror (on the same dispute or any other, since the key
does not include the dispute id) either returns 0 with no state change
or aborts, and in particular never succeeds or records another vote;
when such a second call passes every check up to the cooldown it is
rejected precisely by the already-voted check, returning 0 with the
state unchanged. -/
theorem c8_one_vote_per_juror (s s2 : Disp.DispState) (caller : Address)
    (round did v : Nat) (eff : Disp.VoteEffects)
    (h : Disp.vote_on_dispute s caller round did v = .ok (s2, eff, 1)) :
    boxGet s2.juror_votes (Disp.voteKey caller) = some ⟨caller, v, round, did⟩ ∧
    (∀ (t : Disp.DispState) (r2 d2 v2 : Nat),
      (boxGet t.juror_votes (Disp.voteKey caller)).isSome = true →
      (Disp.vote_on_dispute t caller r2 d2 v2 = .ok (t, Disp.noEffects, 0) ∨
       Disp.vote_on_dispute t caller r2 d2 v2 = .error .underflow ∨
       Disp.vote_on_dispute t caller r2 d2 v2 = .error .tooSoon)) ∧
    (∀ (t : Disp.DispState) (r2 d2 v2 : Nat),
      (maybeBox Disp.disputeZero t.disputes d2).2 = true →
      r2 ≤ ((maybeBox Disp.disputeZero t.disputes d2).1).voting_deadline →
      ((maybeBox Disp.disputeZero t.disputes d2).1).status = 0 →
      (maybeBox Disp.jurorZero t.jurors caller).2 = true →
      (maybeBox ([] : Bytes) t.juror_disputes (Disp.assignKey caller)).2 = true →
      ((maybeBox Disp.jurorZero t.jurors caller).1).last_vote_round ≤ r2 →
      10 ≤ r2 - ((maybeBox Disp.jurorZero t.jurors caller).1).last_vote_round →
      (boxGet t.juror_votes (Disp.voteKey caller)).isSome = true →
      Disp.vote_on_dispute t caller r2 d2 v2 = .ok (t, Disp.noEffects, 0)) := by
  refine ⟨?_, ?_, ?_⟩
  · have h1 := (vote_success_inv s s2 caller round did v eff h).2.1
    rw [h1, (voteApply_char s caller round did v).2.1, boxGet_boxSet_same]
  · intro t r2 d2 v2 hs
    rcases vote_cases t caller r2 d2 v2 with h0 | h0 | h0 | h0
    · exact Or.inl h0
    · exact Or.inr (Or.inl h0.1)
    · exact Or.inr (Or.inr h0.1)
    · have h8 := h0.1.2.2.2.2.2.2.2
      rw [maybeBox_snd_false _ _ _ ] at hs
      · cases hs
      · exact h8
  · intro t r2 d2 v2 h1 h2 h3 h4 h5 h6 h7 h8
    have h9 : (maybeBox Disp.voteZero t.juror_votes (Disp.voteKey caller)).2 = true :=
      maybeBox_snd_of_isSome _ _ _ h8
    simp [Disp.vote_on_dispute, h1, h3, h4, h5, avmSub, h6,
      Nat.not_lt.mpr h2, Nat.not_lt.mpr h7, h9]

/-- Witness for C8: a first yes-vote by juror 7 on the 1-1 dispute
succeeds and records the vote; a second vote call by the same juror on
the same dispute at round 65 (cooldown satisfied) returns 0 and leaves
the state unchanged. -/
theorem c8_witness :
    Disp.vote_on_dispute (dVoteState 1 1) 7 50 1 1 =
      .ok ((Disp.voteApply (dVoteState 1 1) 7 50 1 1).1,
           (Disp.voteApply (dVoteState 1 1) 7 50 1 1).2, 1) ∧
    boxGet ((Disp.voteApply (dVoteState 1 1) 7 50 1 1).1).juror_votes
      (Disp.voteKey 7) = some ⟨7, 1, 50, 1⟩ ∧
    Disp.vote_on_dispute ((Disp.voteApply (dVoteState 1 1) 7 50 1 1).1) 7 65 1 1 =
      .ok ((Disp.voteApply (dVoteState 1 1) 7 50 1 1).1, Disp.noEffects, 0) := by
  have h := c8_one_vote_per_juror (dVoteState 1 1)
    ((Disp.voteApply (dVoteState 1 1) 7 50 1 1).1) 7 50 1 1
    ((Disp.voteApply (dVoteState 1 1) 7 50 1 1).2) (by decide)
  exact ⟨by decide, h.1,
    h.2.2 ((Disp.voteApply (dVoteState 1 1) 7 50 1 1).1) 65 1 1
      (by decide) (by decide) (by decide) (by decide) (by decide)
      (by decide) (by decide) (by decide)⟩

/-- C9.  A juror whose recorded `last_vote_round` is R (the round of the
juror's last successful vote) and who is registered and assigned, voting
on an existing active dispute within its deadline: a vote at any round
strictly below R+10 aborts with the too-soon check (the transaction
fails, leaving all state unchanged); a vote at round R+10 or later is
never rejected by the cooldown (neither the too-soon error nor the
cooldown subtraction underflow can occur). -/
theorem c9_vote_cooldown (s : Disp.DispState) (caller : Address)
    (R round did v : Nat)
    (hex : (maybeBox Disp.disputeZero s.disputes did).2 = true)
    (hdl : round ≤ ((maybeBox Disp.disputeZero s.disputes did).1).voting_deadline)
    (hst : ((maybeBox Disp.disputeZero s.disputes did).1).status = 0)
    (hjr : (maybeBox Disp.jurorZero s.jurors caller).2 = true)
    (hR : ((maybeBox Disp.jurorZero s.jurors caller).1).last_vote_round = R)
    (has2 : (maybeBox ([] : Bytes) s.juror_disputes (Disp.assignKey caller)).2 = true)
    (hmono : R ≤ round) :
    (round < R + 10 →
      Disp.vote_on_dispute s caller round did v = .error .tooSoon) ∧
    (R + 10 ≤ round →
      Disp.vote_on_dispute s caller round did v ≠ .error .tooSoon ∧
      Disp.vote_on_dispute s caller round did v ≠ .error .underflow) := by
  constructor
  · intro hlt
    have hsub : round - ((maybeBox Disp.jurorZero s.jurors caller).1).last_vote_round < 10 := by
      omega
    have hle : ((maybeBox Disp.jurorZero s.jurors caller).1).last_vote_round ≤ round := by
      omega
    simp [Disp.vote_on_dispute, hex, hst, hjr, has2, avmSub, hle,
      Nat.not_lt.mpr hdl, hsub]
  · intro hge
    rcases vote_cases s caller round did v with h0 | h0 | h0 | h0
    · rw [h0]; exact ⟨by simp, by simp⟩
    · exact absurd h0.2.2 (by omega)
    · exact absurd h0.2.2 (by omega)
    · rw [h0.2]; exact ⟨by simp, by simp⟩

/-- Witness for C9: juror 7 last voted at round 40; a vote at round 45
aborts with the too-soon error, and a vote at round 50 is not blocked by
the cooldown. -/
theorem c9_witness :
    Disp.vote_on_dispute dVotedState 7 45 1 1 = .error .tooSoon ∧
    Disp.vote_on_dispute dVotedState 7 50 1 1 ≠ .error .tooSoon := by
  have h45 := c9_vote_cooldown dVotedState 7 40 45 1 1
    (by decide) (by decide) (by decide) (by decide) (by decide) (by decide)
    (by decide)
  have h50 := c9_vote_cooldown dVotedState 7 40 50 1 1
    (by decide) (by decide) (by decide) (by decide) (by decide) (by decide)
    (by decide)
  exact ⟨h45.1 (by decide), (h50.2 (by decide)).1⟩

theorem ins_update_stats_created (s : Ins.InsState) (c f : Nat) :
    Ins._update_stats s "policy_created" c f =
      .ok { s with stats := { s.stats with
        total_policies := s.stats.total_policies + 1,
        total_coverage := s.stats.total_coverage + c,
        active_policies := s.stats.active_policies + 1,
        total_fees_collected := s.stats.total_fees_collected + f } } := by
  unfold Ins._update_stats
  rw [if_pos rfl]

theorem ins_update_stats_settled (s : Ins.InsState) (c f : Nat)
    (hact : 1 ≤ s.stats.active_policies) :
    Ins._update_stats s "policy_settled" c f =
      .ok { s with stats := { s.stats with
        total_payouts := s.stats.total_payouts + c,
        active_policies := s.stats.active_policies - 1 } } := by
  unfold Ins._update_stats
  rw [if_neg (by decide), if_pos rfl]
  simp [avmSub, hact]

theorem ins_update_stats_settled_underflow (s : Ins.InsState) (c f : Nat)
    (hact : s.stats.active_policies = 0) :
    Ins._update_stats s "policy_settled" c f = .error .underflow := by
  unfold Ins._update_stats
  rw [if_neg (by decide), if_pos rfl]
  simp [avmSub, hact]

/-- A call to `oracle_settle` by the registered oracle on a stored,
unsettled policy whose window contains the round, when the
`active_policies` counter is positive. -/
theorem oracle_settle_ok (s : Ins.InsState) (r pid approved : Nat)
    (pd : Ins.PolicyData)
    (hpd : boxGet s.policies pid = some pd) (hset : pd.settled = 0)
    (h0 : pd.t0 ≤ r) (h1 : r ≤ pd.t1)
    (hact : 1 ≤ s.stats.active_policies) :
    Ins.oracle_settle s s.oracle r pid approved =
      .ok (settleResultState s r pid approved pd,
           (if approved = 1 then (if 0 < pd.cap then [⟨pd.owner, pd.cap⟩] else []) else []),
           (if approved = 1 then pd.cap else 0)) := by
  have hm := maybeBox_of_get_some Ins.policyZero pd s.policies pid hpd
  have hu := ins_update_stats_settled
    { s with policies := boxSet s.policies pid { pd with settled := 1 } }
    (if approved = 1 then pd.cap else 0) 0 hact
  simp [Ins.oracle_settle, settleResultState, hm, hset,
    Nat.not_lt.mpr h0, Nat.not_lt.mpr h1, hu]
  by_cases ha : approved = 1 <;> simp [ha]

/-- C1 (amended).  For every stored Unsettled policy whose coverage
window contains the current round, and whose contract state carries a
positive `active_policies` counter (always the case for policies created
through `buy_policy_with_payment`; `buy_policy` skips statistics and can
leave the counter at 0, in which case the settlement aborts with an
arithmetic underflow — see the counterexample), a settle call by the
registered oracle with approved = 1 submits exactly one payment of `cap`
to the policy owner and returns payout = cap, a call with approved = 0
submits nothing and returns 0, both mark the policy Settled, and every
subsequent settle call on a settled policy aborts with the
already-settled StateError regardless of its approved argument — so the
settled field flips Unsettled→Settled at most once. -/
theorem c1_oracle_settle (s : Ins.InsState) (r pid : Nat) (pd : Ins.PolicyData)
    (hpd : boxGet s.policies pid = some pd) (hset : pd.settled = 0)
    (h0 : pd.t0 ≤ r) (h1 : r ≤ pd.t1)
    (hact : 1 ≤ s.stats.active_policies) :
    (Ins.oracle_settle s s.oracle r pid 1 =
       .ok (settleResultState s r pid 1 pd,
            (if 0 < pd.cap then [⟨pd.owner, pd.cap⟩] else []), pd.cap)) ∧
    boxGet (settleResultState s r pid 1 pd).policies pid =
      some { pd with settled := 1 } ∧
    (Ins.oracle_settle s s.oracle r pid 0 =
       .ok (settleResultState s r pid 0 pd, [], 0)) ∧
    boxGet (settleResultState s r pid 0 pd).policies pid =
      some { pd with settled := 1 } ∧
    (∀ (t : Ins.InsState) (r2 pid2 appr : Nat) (pd2 : Ins.PolicyData),
       boxGet t.policies pid2 = some pd2 → pd2.settled ≠ 0 →
       Ins.oracle_settle t t.oracle r2 pid2 appr = .error .alreadySettled) := by
  refine ⟨?_, ?_, ?_, ?_, ?_⟩
  · have h := oracle_settle_ok s r pid 1 pd hpd hset h0 h1 hact
    simpa using h
  · simp [settleResultState, Ins._log_event, boxGet_boxSet_same]
  · have h := oracle_settle_ok s r pid 0 pd hpd hset h0 h1 hact
    simpa using h
  · simp [settleResultState, Ins._log_event, boxGet_boxSet_same]
  · intro t r2 pid2 appr pd2 hpd2 hs2
    have hm := maybeBox_of_get_some Ins.policyZero pd2 t.policies pid2 hpd2
    simp [Ins.oracle_settle, hm, hs2]

/-- Counterexample for C1 as stated: policy 1 is stored, Unsettled, its
window [10, 200] contains round 10, and the registered oracle (3) calls
settle with approved = 1 — but because the policy was created through
`buy_policy` (which does not update statistics), `active_policies` is 0
and the statistics update underflows, aborting the whole call: no
payment is transferred, nothing is marked Settled, and no payout is
returned. -/
theorem c1_counterexample :
    boxGet c1CState.policies 1 = some ⟨2, [], 10, 200, 5, 0, 0, 0, 4, 0⟩ ∧
    c1CState.oracle = 3 ∧
    c1CState.stats.active_policies = 0 ∧
    Ins.oracle_settle c1CState 3 10 1 1 = .error .underflow := by decide

/-- Witness for C1: the same policy created through
`buy_policy_with_payment` (so `active_policies` = 1) settles with a
single payment of the full cap (5) to owner 2. -/
theorem c1_witness :
    boxGet c1WState.policies 1 = some ⟨2, [], 10, 200, 5, 0, 0, 0, 4, 0⟩ ∧
    c1WState.oracle = 3 ∧
    1 ≤ c1WState.stats.active_policies ∧
    Ins.oracle_settle c1WState 3 10 1 1 =
      .ok (settleResultState c1WState 10 1 1 ⟨2, [], 10, 200, 5, 0, 0, 0, 4, 0⟩,
           [⟨2, 5⟩], 5) := by
  refine ⟨by decide, by decide, by decide, ?_⟩
  have h := (c1_oracle_settle c1WState 10 1 ⟨2, [], 10, 200, 5, 0, 0, 0, 4, 0⟩
    (by decide) (by decide) (by decide) (by decide) (by decide)).1
  have ho : c1WState.oracle = 3 := by decide
  rw [← ho]
  simpa using h

theorem buy_policy_with_payment_ok (s : Ins.InsState) (sender : Address)
    (round : Nat) (zip : Bytes) (t0 t1 cap direction threshold slope fee : Nat)
    (h1 : t0 < t1) (h2 : 0 < cap) (h3 : 0 < fee) (h4 : round < t0)
    (h5 : t0 + 100 < t1) :
    Ins.buy_policy_with_payment s sender round 2 zip t0 t1 cap direction threshold slope fee =
      .ok (buyResultState s sender round zip t0 t1 cap direction threshold slope fee,
           s.next_policy_id) := by
  have hu := ins_update_stats_created
    { s with next_policy_id := s.next_policy_id + 1,
             policies := boxSet s.policies s.next_policy_id
               ⟨sender, zip, t0, t1, cap, direction, threshold, slope, fee, 0⟩ }
    cap fee
  simp [Ins.buy_policy_with_payment, buyResultState, Nat.not_le.mpr h1,
    Nat.pos_iff_ne_zero.mp h2, Nat.pos_iff_ne_zero.mp h3,
    Nat.not_le.mpr h4, Nat.not_le.mpr h5, hu]

theorem set_oracle_char (s s2 : Ins.InsState) (sender a : Address)
    (h : Ins.set_oracle s sender a = .ok s2) : s2 = { s with oracle := a } := by
  unfold Ins.set_oracle at h
  split_ifs at h
  cases h
  rfl

theorem set_dispute_contract_char (s s2 : Ins.InsState) (sender a : Address)
    (ret : Nat) (h : Ins.set_dispute_contract s sender a = .ok (s2, ret)) :
    s2 = { s with dispute_contract := a } := by
  unfold Ins.set_dispute_contract at h
  split_ifs at h
  cases h
  rfl

theorem oracle_settle_next (s s2 : Ins.InsState) (sender : Address)
    (r pid a : Nat) (pays : List Ins.Payment) (ret : Nat)
    (h : Ins.oracle_settle s sender r pid a = .ok (s2, pays, ret)) :
    s2.next_policy_id = s.next_policy_id := by
  unfold Ins.oracle_settle at h
  by_cases hc1 : sender ≠ s.oracle
  · rw [if_pos hc1] at h; cases h
  · rw [if_neg hc1] at h
    dsimp only at h
    by_cases hc2 : ((maybeBox Ins.policyZero s.policies pid).1).settled ≠ 0
    · rw [if_pos hc2] at h; cases h
    · rw [if_neg hc2] at h
      by_cases hc3 : r < ((maybeBox Ins.policyZero s.policies pid).1).t0
      · rw [if_pos hc3] at h; cases h
      · rw [if_neg hc3] at h
        by_cases hc4 : ((maybeBox Ins.policyZero s.policies pid).1).t1 < r
        · rw [if_pos hc4] at h; cases h
        · rw [if_neg hc4] at h
          by_cases ha : a = 1
          · simp only [if_pos ha] at h
            split at h
            · cases h
            · rename_i s3 heq
              cases h
              have hf := ins_update_stats_frame _ _ _ _ _ heq
              rw [hf]
              rfl
          · simp only [if_neg ha] at h
            split at h
            · cases h
            · rename_i s3 heq
              cases h
              have hf := ins_update_stats_frame _ _ _ _ _ heq
              rw [hf]
              rfl

theorem dispute_settlement_next (s s2 : Ins.InsState) (sender : Address)
    (r pid : Nat) (att : Bool) (ret : Nat)
    (h : Ins.dispute_settlement s sender r pid = .ok (s2, att, ret)) :
    s2.next_policy_id = s.next_policy_id := by
  unfold Ins.dispute_settlement at h
  dsimp only at h
  split_ifs at h <;> cases h <;> rfl

theorem bpwp_next (s s2 : Ins.InsState) (sender : Address)
    (round group_size : Nat) (zip : Bytes)
    (t0 t1 cap direction threshold slope fee pid : Nat)
    (h : Ins.buy_policy_with_payment s sender round group_size zip
      t0 t1 cap direction threshold slope fee = .ok (s2, pid)) :
    s2.next_policy_id = s.next_policy_id + 1 := by
  unfold Ins.buy_policy_with_payment at h
  split_ifs at h
  dsimp only at h
  split at h
  · cases h
  · rename_i s3 heq
    cases h
    have hf := ins_update_stats_frame _ _ _ _ _ heq
    rw [hf]
    rfl

theorem delete_policy_next (s : Ins.InsState) (sender : Address) (pid : Nat) :
    ((Ins.delete_policy s sender pid).1).next_policy_id = s.next_policy_id := by
  unfold Ins.delete_policy
  dsimp only
  split_ifs <;> rfl

/-- C6 (amended).  `buy_policy_with_payment` (called in a group of 2)
aborts with a validation error whenever t0 ≥ t1, cap = 0, fee = 0, the
lead-time requirement t0 > current round fails, or the minimum duration
t1 > t0 + 100 fails, leaving all state unchanged; on success it assigns
id = `next_policy_id`, increments `next_policy_id`, stores the policy as
Unsettled, updates the aggregate statistics and appends a
`policy_created` event.  Across every contract operation
`next_policy_id` never decreases, so successive creations receive
strictly increasing ids.  (The `buy_policy` testing path stores a policy
with no validation, no statistics update and no event — see the
counterexample.) -/
theorem c6_policy_creation (s : Ins.InsState) (sender : Address)
    (round : Nat) (zip : Bytes) (t0 t1 cap direction threshold slope fee : Nat) :
    (t1 ≤ t0 →
      Ins.buy_policy_with_payment s sender round 2 zip t0 t1 cap direction threshold slope fee =
        .error .startNotBeforeEnd) ∧
    (t0 < t1 → cap = 0 →
      Ins.buy_policy_with_payment s sender round 2 zip t0 t1 cap direction threshold slope fee =
        .error .capNotPositive) ∧
    (t0 < t1 → 0 < cap → fee = 0 →
      Ins.buy_policy_with_payment s sender round 2 zip t0 t1 cap direction threshold slope fee =
        .error .feeNotPositive) ∧
    (t0 < t1 → 0 < cap → 0 < fee → t0 ≤ round →
      Ins.buy_policy_with_payment s sender round 2 zip t0 t1 cap direction threshold slope fee =
        .error .startsInPast) ∧
    (t0 < t1 → 0 < cap → 0 < fee → round < t0 → t1 ≤ t0 + 100 →
      Ins.buy_policy_with_payment s sender round 2 zip t0 t1 cap direction threshold slope fee =
        .error .durationTooShort) ∧
    (t0 < t1 → 0 < cap → 0 < fee → round < t0 → t0 + 100 < t1 →
      (Ins.buy_policy_with_payment s sender round 2 zip t0 t1 cap direction threshold slope fee =
         .ok (buyResultState s sender round zip t0 t1 cap direction threshold slope fee,
              s.next_policy_id) ∧
       boxGet (buyResultState s sender round zip t0 t1 cap direction threshold slope fee).policies
           s.next_policy_id =
         some ⟨sender, zip, t0, t1, cap, direction, threshold, slope, fee, 0⟩ ∧
       (buyResultState s sender round zip t0 t1 cap direction threshold slope fee).next_policy_id =
         s.next_policy_id + 1 ∧
       (buyResultState s sender round zip t0 t1 cap direction threshold slope fee).stats =
         { s.stats with
           total_policies := s.stats.total_policies + 1,
           total_coverage := s.stats.total_coverage + cap,
           active_policies := s.stats.active_policies + 1,
           total_fees_collected := s.stats.total_fees_collected + fee } ∧
       boxGet (buyResultState s sender round zip t0 t1 cap direction threshold slope fee).event_log
           s.next_event_id =
         some ⟨s.next_policy_id, sender, "policy_created", round, cap⟩)) ∧
    (∀ u u2 : Ins.InsState, InsStep u u2 → u.next_policy_id ≤ u2.next_policy_id) := by
  refine ⟨?_, ?_, ?_, ?_, ?_, ?_, ?_⟩
  · intro h1
    simp [Ins.buy_policy_with_payment, h1]
  · intro h1 h2
    simp [Ins.buy_policy_with_payment, Nat.not_le.mpr h1, h2]
  · intro h1 h2 h3
    simp [Ins.buy_policy_with_payment, Nat.not_le.mpr h1,
      Nat.pos_iff_ne_zero.mp h2, h3]
  · intro h1 h2 h3 h4
    simp [Ins.buy_policy_with_payment, Nat.not_le.mpr h1,
      Nat.pos_iff_ne_zero.mp h2, Nat.pos_iff_ne_zero.mp h3, h4]
  · intro h1 h2 h3 h4 h5
    simp [Ins.buy_policy_with_payment, Nat.not_le.mpr h1,
      Nat.pos_iff_ne_zero.mp h2, Nat.pos_iff_ne_zero.mp h3,
      Nat.not_le.mpr h4, h5]
  · intro h1 h2 h3 h4 h5
    refine ⟨buy_policy_with_payment_ok s sender round zip t0 t1 cap direction
      threshold slope fee h1 h2 h3 h4 h5, ?_, rfl, rfl, ?_⟩
    · simp [buyResultState, Ins._log_event, boxGet_boxSet_same]
    · simp [buyResultState, Ins._log_event, boxGet_boxSet_same]
  · intro u u2 hstep
    cases hstep with
    | set_oracle =>
      rename_i h0
      rw [set_oracle_char _ _ _ _ h0]
    | set_dispute_contract =>
      rename_i h0
      rw [set_dispute_contract_char _ _ _ _ _ h0]
    | buy_with_payment =>
      rename_i h0
      rw [bpwp_next _ _ _ _ _ _ _ _ _ _ _ _ _ _ h0]
      exact Nat.le_succ _
    | buy =>
      exact Nat.le_succ _
    | settle =>
      rename_i h0
      rw [oracle_settle_next _ _ _ _ _ _ _ _ h0]
    | dispute =>
      rename_i h0
      rw [dispute_settlement_next _ _ _ _ _ _ _ h0]
    | delete =>
      rw [delete_policy_next]

/-- Counterexample for C6 as stated: the `buy_policy` creation path
accepts t0 = 5 ≥ t1 = 3, cap = 0 and fee = 0, returns success (policy id
1), stores the malformed policy, and updates neither the statistics nor
the event log. -/
theorem c6_counterexample :
    c6COut.2 = 1 ∧
    boxGet c6COut.1.policies 1 = some ⟨2, [], 5, 3, 0, 0, 0, 0, 0, 0⟩ ∧
    c6COut.1.stats = iW0.stats ∧
    c6COut.1.event_log = iW0.event_log := by decide

/-- Witness for C6 (amended): a valid purchase on the freshly configured
contract succeeds with policy id 1 and stores the policy Unsettled. -/
theorem c6_witness :
    Ins.buy_policy_with_payment iW1 2 1 2 [] 10 200 5 0 0 0 4 =
      .ok (buyResultState iW1 2 1 [] 10 200 5 0 0 0 4, iW1.next_policy_id) ∧
    boxGet (buyResultState iW1 2 1 [] 10 200 5 0 0 0 4).policies iW1.next_policy_id =
      some ⟨2, [], 10, 200, 5, 0, 0, 0, 4, 0⟩ :=
  have h := (c6_policy_creation iW1 2 1 [] 10 200 5 0 0 0 4).2.2.2.2.2.1
    (by decide) (by decide) (by decide) (by decide) (by decide)
  ⟨h.1, h.2.1⟩

/-- C7 (code bug).  Policy 1 was settled by the oracle at round 1500,
and its owner (account 2) files a dispute at round 1600 — 100 rounds
after the settlement, well inside the claimed 1000-round window — yet
`dispute_settlement` aborts with "Dispute filing period expired": the
source sets `settlement_round = policy_data.settled.native`, i.e. the
0/1 settled flag (its own comment concedes "We need to track settlement
time"), so the window check degenerates to `current_round <= 1001` and
rejects every dispute filed after round 1001 no matter when settlement
happened.  The owner/settled gating itself behaves as claimed: a
non-owner call and a call on a not-yet-settled policy return 0 without
filing. -/
theorem c7_dispute_window_bug :
    boxGet c7State.policies 1 = some ⟨2, [], 1500, 1700, 5, 0, 0, 0, 2, 1⟩ ∧
    Ins.dispute_settlement c7State 2 1600 1 = .error .disputeWindowExpired ∧
    Ins.dispute_settlement c7State 4 1600 1 = .ok (c7State, false, 0) ∧
    Ins.dispute_settlement c7S1 2 1600 1 = .ok (c7S1, false, 0) := by decide

theorem boxDel_cons {κ ν : Type} [DecidableEq κ] (k0 : κ) (v0 : ν)
    (tl : List (κ × ν)) (key : κ) :
    boxDel ((k0, v0) :: tl) key =
      if k0 = key then boxDel tl key else (k0, v0) :: boxDel tl key := by
  simp only [boxDel]

theorem boxDel_eq_of_not_mem {κ ν : Type} [DecidableEq κ]
    (m : List (κ × ν)) (k : κ) (h : k ∉ m.map Prod.fst) : boxDel m k = m := by
  induction m with
  | nil => rfl
  | cons hd tl ih =>
    obtain ⟨k0, v0⟩ := hd
    simp only [List.map_cons, List.mem_cons] at h
    push_neg at h
    unfold boxDel
    rw [if_neg (fun h2 => h.1 h2.symm), ih h.2]

/-- Deleting a stored unsettled policy from a duplicate-free policy map
decreases the number of unsettled policies by exactly one. -/
theorem filter_boxDel (m : List (Nat × Ins.PolicyData)) (k : Nat)
    (pd : Ins.PolicyData) (hnodup : (m.map Prod.fst).Nodup)
    (hget : boxGet m k = some pd) (hset : pd.settled = 0) :
    ((boxDel m k).filter (fun p => decide (p.2.settled = 0))).length + 1 =
      (m.filter (fun p => decide (p.2.settled = 0))).length := by
  induction m with
  | nil => simp [boxGet] at hget
  | cons hd tl ih =>
    obtain ⟨k0, v0⟩ := hd
    simp only [List.map_cons, List.nodup_cons] at hnodup
    unfold boxGet at hget
    by_cases hk : k0 = k
    · rw [if_pos hk] at hget
      cases hget
      subst hk
      rw [boxDel_cons, if_pos rfl, boxDel_eq_of_not_mem tl k0 hnodup.1]
      simp [List.filter_cons, hset]
    · rw [if_neg hk] at hget
      have ihh := ih hnodup.2 hget
      rw [boxDel_cons, if_neg hk]
      by_cases hv : v0.settled = 0 <;>
        simp [List.filter_cons, hv] <;> omega

/-- C10.  `delete_policy`, called by the owner of an existing unsettled
policy, removes exactly that one policy record and returns 1, changing
nothing else (the success equation updates only the `policies` field, so
statistics, event log, `next_policy_id`, `next_event_id` and the
global addresses are untouched, and every other policy record is
preserved); consequently, if `active_policies` equalled the number of
stored unsettled policies before the delete it no longer does after.
In every other case (missing policy, non-owner caller, settled policy)
it returns 0 and changes nothing. -/
theorem c10_delete_policy (s : Ins.InsState) (sender : Address) (pid : Nat)
    (pd : Ins.PolicyData) :
    (boxGet s.policies pid = some pd → sender = pd.owner → pd.settled = 0 →
      (Ins.delete_policy s sender pid =
         ({ s with policies := boxDel s.policies pid }, 1) ∧
       boxGet (boxDel s.policies pid) pid = none ∧
       (∀ q : Nat, q ≠ pid → boxGet (boxDel s.policies pid) q = boxGet s.policies q))) ∧
    (boxGet s.policies pid = none → Ins.delete_policy s sender pid = (s, 0)) ∧
    (boxGet s.policies pid = some pd → sender ≠ pd.owner →
      Ins.delete_policy s sender pid = (s, 0)) ∧
    (boxGet s.policies pid = some pd → pd.settled = 1 →
      Ins.delete_policy s sender pid = (s, 0)) ∧
    (boxGet s.policies pid = some pd → sender = pd.owner → pd.settled = 0 →
      (s.policies.map Prod.fst).Nodup →
      (unsettledCount { s with policies := boxDel s.policies pid } + 1 =
         unsettledCount s ∧
       ({ s with policies := boxDel s.policies pid } : Ins.InsState).stats = s.stats ∧
       (s.stats.active_policies = unsettledCount s →
         ({ s with policies := boxDel s.policies pid } : Ins.InsState).stats.active_policies ≠
           unsettledCount { s with policies := boxDel s.policies pid }))) := by
  refine ⟨?_, ?_, ?_, ?_, ?_⟩
  · intro hget hown hset
    have hm := maybeBox_of_get_some Ins.policyZero pd s.policies pid hget
    refine ⟨?_, boxGet_boxDel_same _ _, fun q hq => boxGet_boxDel_other _ _ _ hq⟩
    simp [Ins.delete_policy, hm, hown, hset]
  · intro hget
    have hm := maybeBox_of_get_none Ins.policyZero s.policies pid hget
    simp [Ins.delete_policy, hm]
  · intro hget hown
    have hm := maybeBox_of_get_some Ins.policyZero pd s.policies pid hget
    simp [Ins.delete_policy, hm, hown]
  · intro hget hset
    have hm := maybeBox_of_get_some Ins.policyZero pd s.policies pid hget
    by_cases hown : sender ≠ pd.owner
    · simp [Ins.delete_policy, hm, hown]
    · simp [Ins.delete_policy, hm, hown, hset]
  · intro hget hown hset hnodup
    have hcount := filter_boxDel s.policies pid pd hnodup hget hset
    refine ⟨hcount, rfl, ?_⟩
    intro heq
    have hstats :
        ({ s with policies := boxDel s.policies pid } : Ins.InsState).stats.active_policies =
          s.stats.active_policies := rfl
    have hpol :
        ({ s with policies := boxDel s.policies pid } : Ins.InsState).policies =
          boxDel s.policies pid := rfl
    unfold unsettledCount at *
    rw [hpol]
    omega

/-- Witness for C10: deleting the single unsettled policy of `c1WState`
succeeds, removes only that record, leaves the statistics untouched, and
breaks the equality between `active_policies` (still 1) and the number
of stored unsettled policies (now 0). -/
theorem c10_witness :
    boxGet c1WState.policies 1 = some ⟨2, [], 10, 200, 5, 0, 0, 0, 4, 0⟩ ∧
    Ins.delete_policy c1WState 2 1 =
      ({ c1WState with policies := boxDel c1WState.policies 1 }, 1) ∧
    c1WState.stats.active_policies = unsettledCount c1WState ∧
    ({ c1WState with policies := boxDel c1WState.policies 1 } : Ins.InsState).stats.active_policies ≠
      unsettledCount { c1WState with policies := boxDel c1WState.policies 1 } := by
  have h := c10_delete_policy c1WState 2 1 ⟨2, [], 10, 200, 5, 0, 0, 0, 4, 0⟩
  exact ⟨by decide, (h.1 (by decide) (by decide) (by decide)).1, by decide,
    (h.2.2.2.2 (by decide) (by decide) (by decide) (by decide)).2.2 (by decide)⟩
